import Mathlib

/-!
# nuttx/sched/task_exithook.c

A shallow embedding of the task-termination hook of NuttX
(`task_atexit`, `task_onexit`, `task_sigchild`, `task_exitwakeup`,
`task_exithook`) and theorems about it.

Conventions of the embedding.

* A pointer to a task control block is an address (`Nat`) into the table
  `Sys.tcbs`; two pointers alias exactly when the addresses are equal.
* `NULL` is `none`; a function pointer is the identity (`Nat`) of the code it
  points to.  Calling through a function pointer is recorded as an event of
  the trace; what the called code does is outside this file.
* Calls of functions that live in other files (`sched_lock`, `sched_gettcb`,
  `sig_received`, `sem_post`, ...) are recorded as events of the trace; the
  reads `getpid()` and `task_findchild` are not.
* The C preprocessor symbols that select the code are fields of `Config`, and
  so are the constants that come from headers.
-/

namespace TaskExithook

/-! ## Build configuration and header constants -/

/-- The preprocessor symbols tested by `task_exithook.c`, and the constants it
takes from headers (`nuttx/sched.h`, `signal.h`, `os_internal.h`).  The values
of the constants are parameters: nothing below depends on a particular
value. -/
structure Config where
  /-- The symbol `CONFIG_SCHED_ATEXIT` is defined. -/
  CONFIG_SCHED_ATEXIT : Bool
  /-- The symbol `CONFIG_SCHED_ONEXIT` is defined. -/
  CONFIG_SCHED_ONEXIT : Bool
  /-- The value of `CONFIG_SCHED_ATEXIT_MAX`, `none` when it is not defined. -/
  CONFIG_SCHED_ATEXIT_MAX : Option Nat
  /-- The value of `CONFIG_SCHED_ONEXIT_MAX`, `none` when it is not defined. -/
  CONFIG_SCHED_ONEXIT_MAX : Option Nat
  /-- The symbol `CONFIG_SCHED_HAVE_PARENT` is defined. -/
  CONFIG_SCHED_HAVE_PARENT : Bool
  /-- The symbol `CONFIG_SCHED_CHILD_STATUS` is defined. -/
  CONFIG_SCHED_CHILD_STATUS : Bool
  /-- The symbol `CONFIG_SCHED_WAITPID` is defined. -/
  CONFIG_SCHED_WAITPID : Bool
  /-- The value of `CONFIG_NFILE_STREAMS`. -/
  CONFIG_NFILE_STREAMS : Nat
  /-- The symbol `CONFIG_DISABLE_SIGNALS` is defined. -/
  CONFIG_DISABLE_SIGNALS : Bool
  /-- The symbol `CONFIG_DEBUG` is defined: `DEBUGASSERT` checks its argument.
  Without it `DEBUGASSERT(f)` expands to nothing. -/
  CONFIG_DEBUG : Bool
  TCB_FLAG_TTYPE_MASK : Nat
  TCB_FLAG_TTYPE_TASK : Nat
  TCB_FLAG_NOCLDWAIT : Nat
  CHILD_FLAG_EXITED : Nat
  INVALID_PROCESS_ID : Int
  SIGCHLD : Int
  CLD_EXITED : Int

/-! ## Data model -/

/-- The part of `sem_t` the hook reads: the count, negative while threads are
blocked on the semaphore. -/
structure sem_t where
  semcount : Int
deriving DecidableEq, Repr

/-- One child status record (`struct child_status_s`). -/
structure child_status_s where
  ch_flags : Nat
  ch_pid : Int
  ch_status : Int
deriving DecidableEq, Repr

/-- The fields of the task control block (`_TCB`, declared in `nuttx/sched.h`)
that `task_exithook.c` touches.  A slot array that the configuration declares
as a single pointer is an array of one element.  `nchildren` is a `uint16_t`.
Function pointers and the `void *` arguments of on-exit callbacks are numbers;
`stat_loc` is the address of an `int`. -/
structure TCB where
  pid : Int
  parent : Int
  flags : Nat
  nchildren : Nat
  children : List child_status_s
  atexitfunc : List (Option Nat)
  onexitfunc : List (Option Nat)
  onexitarg : List Nat
  exitsem : sem_t
  stat_loc : Option Nat
deriving DecidableEq, Repr

/-- The signal information block (`siginfo_t`) built by `task_sigchild`. -/
structure siginfo_t where
  si_signo : Int
  si_code : Int
  si_value_sival_ptr : Option Nat
  si_pid : Int
  si_status : Int
deriving DecidableEq, Repr

/-- What the hook does that is visible outside the task records: calls through
registered function pointers and calls of functions of other files, in the
order in which they happen. -/
inductive Event where
  /-- The call `(*tcb->atexitfunc[index])()`. -/
  | atexit_call (func : Nat)
  /-- The call `(*tcb->onexitfunc[index])(status, tcb->onexitarg[index])`. -/
  | onexit_call (func : Nat) (status : Int) (arg : Nat)
  | sched_lock
  | sched_unlock
  /-- The call `sched_gettcb(pid)`. -/
  | sched_gettcb (pid : Int)
  /-- The call `sig_received(ptcb, &info)`. -/
  | sig_received (ptcb : Nat) (info : siginfo_t)
  /-- The call `sem_post(&tcb->exitsem)`. -/
  | sem_post (tcb : Nat)
  /-- The store `*tcb->stat_loc = value`. -/
  | stat_store (loc : Nat) (value : Int)
  | lib_flushall (tcb : Nat)
  | task_removechildren (tcb : Nat)
  | sched_releasefiles (tcb : Nat)
  | sig_cleanup (tcb : Nat)
deriving DecidableEq, Repr

/-- The state the hook runs in. -/
structure Sys where
  /-- The task control blocks, by address. -/
  tcbs : Nat → TCB
  /-- The task lookup `sched_gettcb` (the pid table): the address of the
  record of the task with the given id, `none` (NULL) when there is none. -/
  sched_gettcb : Int → Option Nat
  /-- The value `getpid()` returns: the id of the task that is running. -/
  getpid : Int
  /-- The nesting depth of the scheduler lock. -/
  lockcount : Nat
  /-- The `int` objects that `stat_loc` pointers point to, by address. -/
  intmem : Nat → Int
  /-- The events so far, oldest first. -/
  trace : List Event

/-- The values returned by the collaborators whose result the hook receives
(`sig_received`, `lib_flushall`, `sched_releasefiles`). -/
structure Collab where
  sig_received : Nat → siginfo_t → Int
  lib_flushall : Nat → Int
  sched_releasefiles : Nat → Int

/-- How a run ends: it returns, or a `DEBUGASSERT` fails and the system stops
there (`up_assert` does not return).  Both carry the state reached. -/
inductive Run where
  | done (s : Sys)
  | fatal (s : Sys)

/-- The state a run ended in. -/
def Run.state : Run → Sys
  | .done s => s
  | .fatal s => s

/-- A run returned to its caller. -/
def Run.returned : Run → Bool
  | .done _ => true
  | .fatal _ => false

/-- Sequencing: the rest of the function runs only when the first part
returned. -/
def Run.andThen (r : Run) (k : Sys → Run) : Run :=
  match r with
  | .done s => k s
  | .fatal s => .fatal s

/-! ## State access -/

/-- Append an event to the trace. -/
def emit (e : Event) (s : Sys) : Sys :=
  { s with trace := s.trace ++ [e] }

/-- Store a task control block at an address. -/
def setTcb (t : Nat) (v : TCB) (s : Sys) : Sys :=
  { s with tcbs := Function.update s.tcbs t v }

/-- Wrap an integer into the range of a 32-bit `int`. -/
def int32 (x : Int) : Int :=
  (x + 2 ^ 31) % 2 ^ 32 - 2 ^ 31

/-- The number of at-exit slots of a task record: `CONFIG_SCHED_ATEXIT_MAX`
when that is defined and greater than one, else one.  The field exists under
the condition under which `task_atexit` is compiled, so there is no slot when
`task_atexit` is compiled out. -/
def atexit_slots (cfg : Config) : Nat :=
  if cfg.CONFIG_SCHED_ATEXIT && !cfg.CONFIG_SCHED_ONEXIT then
    match cfg.CONFIG_SCHED_ATEXIT_MAX with
    | some m => if 1 < m then m else 1
    | none => 1
  else 0

/-- The number of on-exit slots of a task record, as `atexit_slots`. -/
def onexit_slots (cfg : Config) : Nat :=
  if cfg.CONFIG_SCHED_ONEXIT then
    match cfg.CONFIG_SCHED_ONEXIT_MAX with
    | some m => if 1 < m then m else 1
    | none => 1
  else 0

/-- A task record has the slot arrays its configuration declares. -/
def TCB.wf (cfg : Config) (tcb : TCB) : Prop :=
  tcb.atexitfunc.length = atexit_slots cfg ∧
  tcb.onexitfunc.length = onexit_slots cfg ∧
  tcb.onexitarg.length = onexit_slots cfg

instance (cfg : Config) (tcb : TCB) : Decidable (TCB.wf cfg tcb) := by
  unfold TCB.wf
  infer_instance

/-! ## Collaborators -/

/-- Modelled from the spec: `sched_lock` (sched/sched_lock.c) is the
recursive-safe `acquire_scheduler_lock()`: it raises the nesting depth. -/
def sched_lock (s : Sys) : Sys :=
  emit .sched_lock { s with lockcount := s.lockcount + 1 }

/-- Modelled from the spec: `sched_unlock` (sched/sched_unlock.c) is
`release_scheduler_lock()`: it lowers the nesting depth. -/
def sched_unlock (s : Sys) : Sys :=
  emit .sched_unlock { s with lockcount := s.lockcount - 1 }

/-- Modelled from the spec: the search behind `task_findchild`, over the child
status records of a parent, for the record keyed by a task id; the result is
the position of the first record with that id. -/
def findchild : List child_status_s → Int → Option Nat
  | [], _ => none
  | c :: cs, pid =>
    if c.ch_pid = pid then some 0 else (findchild cs pid).map (· + 1)

/-- Modelled from the spec: `task_findchild` (sched/task_childstatus.c) is
`find_child_record(parent_reference, child_id)`: the child status record of
the parent that is keyed by the given task id, or NULL.  The result is the
position of the record among the records of the parent. -/
def task_findchild (ptcb : TCB) (pid : Int) : Option Nat :=
  findchild ptcb.children pid

/-- Modelled from the spec: `sem_post` (sched/sem_post.c) is
`release_one_waiter`: it raises the count of the semaphore by one, which
releases one blocked thread when there is one. -/
def sem_post (t : Nat) (s : Sys) : Sys :=
  let tcb := s.tcbs t
  emit (.sem_post t)
    (setTcb t { tcb with exitsem := { semcount := tcb.exitsem.semcount + 1 } } s)

/-- Modelled from the spec: `task_removechildren` (sched/task_childstatus.c)
is `reap_own_children`: every child status record owned by the task is
destroyed, unconditionally. -/
def task_removechildren (t : Nat) (s : Sys) : Sys :=
  emit (.task_removechildren t) (setTcb t { s.tcbs t with children := [] } s)

/-! ## task_atexit -/

/-- The body of the loop of `task_atexit` at one index: an occupied slot is
called, then nullified. -/
def task_atexit_body (t : Nat) (index : Nat) (s : Sys) : Sys :=
  match (s.tcbs t).atexitfunc.getD index none with
  | some func =>
    -- (*tcb->atexitfunc[index])();
    let s1 := emit (.atexit_call func) s
    -- tcb->atexitfunc[index] = NULL;
    setTcb t { s1.tcbs t with atexitfunc := (s1.tcbs t).atexitfunc.set index none } s1
  | none => s

/-- The loop `for (index = n - 1; index >= 0; index--)` of `task_atexit`,
with `n` the number of indices still to visit. -/
def task_atexit_loop (t : Nat) : Nat → Sys → Sys
  | 0, s => s
  | n + 1, s => task_atexit_loop t n (task_atexit_body t n s)

/-- The function `task_atexit(tcb)`. -/
def task_atexit (cfg : Config) (t : Nat) (s : Sys) : Sys :=
  if cfg.CONFIG_SCHED_ATEXIT && !cfg.CONFIG_SCHED_ONEXIT then
    match cfg.CONFIG_SCHED_ATEXIT_MAX with
    | some m =>
      if 1 < m then
        task_atexit_loop t m s
      else
        -- the single pointer `tcb->atexitfunc`
        task_atexit_body t 0 s
    | none => task_atexit_body t 0 s
  else
    -- #define task_atexit(tcb)
    s

/-! ## task_onexit -/

/-- The body of the loop of `task_onexit` at one index. -/
def task_onexit_body (t : Nat) (status : Int) (index : Nat) (s : Sys) : Sys :=
  match (s.tcbs t).onexitfunc.getD index none with
  | some func =>
    -- (*tcb->onexitfunc[index])(status, tcb->onexitarg[index]);
    let s1 := emit (.onexit_call func status ((s.tcbs t).onexitarg.getD index 0)) s
    -- tcb->onexitfunc[index] = NULL;
    setTcb t { s1.tcbs t with onexitfunc := (s1.tcbs t).onexitfunc.set index none } s1
  | none => s

/-- The loop `for (index = n - 1; index >= 0; index--)` of `task_onexit`. -/
def task_onexit_loop (t : Nat) (status : Int) : Nat → Sys → Sys
  | 0, s => s
  | n + 1, s => task_onexit_loop t status n (task_onexit_body t status n s)

/-- The function `task_onexit(tcb, status)`. -/
def task_onexit (cfg : Config) (t : Nat) (status : Int) (s : Sys) : Sys :=
  if cfg.CONFIG_SCHED_ONEXIT then
    match cfg.CONFIG_SCHED_ONEXIT_MAX with
    | some m =>
      if 1 < m then
        task_onexit_loop t status m s
      else
        task_onexit_body t status 0 s
    | none => task_onexit_body t status 0 s
  else
    -- #define task_onexit(tcb,status)
    s

/-! ## task_sigchild -/

/-- Apply a change to the child status record at a position (a write through
the pointer `child`). -/
def child_update (f : child_status_s → child_status_s) :
    Nat → List child_status_s → List child_status_s
  | _, [] => []
  | 0, c :: cs => f c :: cs
  | i + 1, c :: cs => c :: child_update f i cs

/-- The statement `ptcb->nchildren--` on a `uint16_t`. -/
def nchildren_dec (n : Nat) : Nat :=
  (n + (2 ^ 16 - 1)) % 2 ^ 16

/-- The accounting block of `task_sigchild`, between the parent lookup and the
overwrite of the parent link: the `CONFIG_SCHED_CHILD_STATUS` branch marks the
child status record, the other branch decrements the counter.
`ptcb` is the address of the parent. -/
def task_sigchild_accounting (cfg : Config) (ptcb : Nat) (status : Int) (s : Sys) : Run :=
  if cfg.CONFIG_SCHED_CHILD_STATUS then
    -- if ((ptcb->flags & TCB_FLAG_NOCLDWAIT) == 0)
    if ((s.tcbs ptcb).flags &&& cfg.TCB_FLAG_NOCLDWAIT) = 0 then
      -- child = task_findchild(ptcb, getpid());
      let child := task_findchild (s.tcbs ptcb) s.getpid
      -- DEBUGASSERT(child);
      if cfg.CONFIG_DEBUG && child.isNone then
        .fatal s
      else
        -- if (child)
        match child with
        | some c =>
          -- child->ch_flags |= CHILD_FLAG_EXITED; child->ch_status = status;
          .done (setTcb ptcb
            { s.tcbs ptcb with
              children := child_update
                (fun r => { r with ch_flags := r.ch_flags ||| cfg.CHILD_FLAG_EXITED,
                                   ch_status := status })
                c (s.tcbs ptcb).children } s)
        | none => .done s
    else
      .done s
  else
    -- DEBUGASSERT(ptcb->nchildren > 0);
    if cfg.CONFIG_DEBUG && decide ((s.tcbs ptcb).nchildren = 0) then
      .fatal s
    else
      -- ptcb->nchildren--;
      .done (setTcb ptcb
        { s.tcbs ptcb with nchildren := nchildren_dec (s.tcbs ptcb).nchildren } s)

/-- The signal information `task_sigchild` builds for a task record and a
status. -/
def sigchild_info (cfg : Config) (tcb : TCB) (status : Int) : siginfo_t :=
  { si_signo := cfg.SIGCHLD
    si_code := cfg.CLD_EXITED
    si_value_sival_ptr := none
    si_pid := tcb.pid
    si_status := status }

/-- The function `task_sigchild(tcb, status)`. -/
def task_sigchild (cfg : Config) (env : Collab) (t : Nat) (status : Int) (s : Sys) : Run :=
  if cfg.CONFIG_SCHED_HAVE_PARENT then
    -- if ((tcb->flags & TCB_FLAG_TTYPE_MASK) == TCB_FLAG_TTYPE_TASK)
    if ((s.tcbs t).flags &&& cfg.TCB_FLAG_TTYPE_MASK) = cfg.TCB_FLAG_TTYPE_TASK then
      -- sched_lock();
      let s0 := sched_lock s
      -- ptcb = sched_gettcb(tcb->parent);
      let s1 := emit (.sched_gettcb (s0.tcbs t).parent) s0
      match s1.sched_gettcb (s1.tcbs t).parent with
      | none =>
        -- The parent no longer exists... bail
        .done (sched_unlock s1)
      | some ptcb =>
        (task_sigchild_accounting cfg ptcb status s1).andThen fun s2 =>
          -- tcb->parent = INVALID_PROCESS_ID;
          let s3 := setTcb t { s2.tcbs t with parent := cfg.INVALID_PROCESS_ID } s2
          let info := sigchild_info cfg (s3.tcbs t) status
          -- (void)sig_received(ptcb, &info);
          let _ := env.sig_received ptcb info
          let s4 := emit (.sig_received ptcb info) s3
          .done (sched_unlock s4)
    else
      .done s
  else
    -- #define task_sigchild(tcb,status)
    .done s

/-! ## task_exitwakeup -/

/-- The body of the loop of `task_exitwakeup`: deliver the status to a pending
location, then post the exit semaphore.  The shift `status << 8` is taken in
a 32-bit `int`. -/
def task_exitwakeup_body (t : Nat) (status : Int) (s : Sys) : Sys :=
  let s2 :=
    match (s.tcbs t).stat_loc with
    | some loc =>
      -- *tcb->stat_loc = status << 8;
      let v := int32 (status * 2 ^ 8)
      let s1 := emit (.stat_store loc v) { s with intmem := Function.update s.intmem loc v }
      -- tcb->stat_loc = NULL;
      setTcb t { s1.tcbs t with stat_loc := none } s1
    | none => s
  sem_post t s2

/-- The loop `while (tcb->exitsem.semcount < 0)` of `task_exitwakeup`. -/
def task_exitwakeup_loop (t : Nat) (status : Int) (s : Sys) : Sys :=
  if (s.tcbs t).exitsem.semcount < 0 then
    task_exitwakeup_loop t status (task_exitwakeup_body t status s)
  else
    s
termination_by ((s.tcbs t).exitsem.semcount).natAbs
decreasing_by
  have hpost : ((task_exitwakeup_body t status s).tcbs t).exitsem.semcount
      = (s.tcbs t).exitsem.semcount + 1 := by
    unfold task_exitwakeup_body
    cases (s.tcbs t).stat_loc <;> simp [sem_post, setTcb, emit]
  rw [hpost]
  omega

/-- The function `task_exitwakeup(tcb, status)`. -/
def task_exitwakeup (cfg : Config) (t : Nat) (status : Int) (s : Sys) : Sys :=
  if cfg.CONFIG_SCHED_WAITPID && !cfg.CONFIG_SCHED_HAVE_PARENT then
    task_exitwakeup_loop t status s
  else
    -- #define task_exitwakeup(tcb, status)
    s

/-! ## task_exithook -/

/-- The function `task_exithook(tcb, status)`. -/
def task_exithook (cfg : Config) (env : Collab) (t : Nat) (status : Int) (s : Sys) : Run :=
  let s1 := task_atexit cfg t s
  let s2 := task_onexit cfg t status s1
  (task_sigchild cfg env t status s2).andThen fun s3 =>
    let s4 := task_exitwakeup cfg t status s3
    -- (void)lib_flushall(tcb->streams);
    let s5 :=
      if 0 < cfg.CONFIG_NFILE_STREAMS then
        let _ := env.lib_flushall t
        emit (.lib_flushall t) s4
      else s4
    let s6 :=
      if cfg.CONFIG_SCHED_HAVE_PARENT && cfg.CONFIG_SCHED_CHILD_STATUS then
        task_removechildren t s5
      else s5
    -- (void)sched_releasefiles(tcb);
    let _ := env.sched_releasefiles t
    let s7 := emit (.sched_releasefiles t) s6
    let s8 :=
      if !cfg.CONFIG_DISABLE_SIGNALS then
        emit (.sig_cleanup t) s7
      else s7
    .done s8

/-! ## Reading a trace -/

/-- The at-exit callbacks called in a trace, in order. -/
def atexit_calls (tr : List Event) : List Nat :=
  tr.filterMap fun e =>
    match e with
    | .atexit_call func => some func
    | _ => none

/-- The on-exit calls of a trace, in order: function, status, argument. -/
def onexit_calls (tr : List Event) : List (Nat × Int × Nat) :=
  tr.filterMap fun e =>
    match e with
    | .onexit_call func status arg => some (func, status, arg)
    | _ => none

/-- The signals submitted in a trace, in order: receiving record and
payload. -/
def signals (tr : List Event) : List (Nat × siginfo_t) :=
  tr.filterMap fun e =>
    match e with
    | .sig_received ptcb info => some (ptcb, info)
    | _ => none

/-- The number of `sem_post` calls of a trace on the exit semaphore of a
record. -/
def sem_posts (t : Nat) (tr : List Event) : Nat :=
  tr.count (.sem_post t)

/-- The on-exit call made at one index, if the slot is occupied. -/
def onexit_event (funcs : List (Option Nat)) (args : List Nat) (status : Int) (i : Nat) :
    Option Event :=
  (funcs.getD i none).map fun func => Event.onexit_call func status (args.getD i 0)

/-- Between two states no callback slot of any record has changed and no
callback has been called. -/
def callbacks_untouched (s s' : Sys) : Prop :=
  (∀ a, (s'.tcbs a).atexitfunc = (s.tcbs a).atexitfunc) ∧
  (∀ a, (s'.tcbs a).onexitfunc = (s.tcbs a).onexitfunc) ∧
  atexit_calls s'.trace = atexit_calls s.trace ∧
  onexit_calls s'.trace = onexit_calls s.trace

/-- The steps of `task_exithook` that follow the two callback drains. -/
def task_exithook_rest (cfg : Config) (env : Collab) (t : Nat) (status : Int) (s : Sys) : Run :=
  (task_sigchild cfg env t status s).andThen fun s3 =>
    let s4 := task_exitwakeup cfg t status s3
    let s5 :=
      if 0 < cfg.CONFIG_NFILE_STREAMS then
        let _ := env.lib_flushall t
        emit (.lib_flushall t) s4
      else s4
    let s6 :=
      if cfg.CONFIG_SCHED_HAVE_PARENT && cfg.CONFIG_SCHED_CHILD_STATUS then
        task_removechildren t s5
      else s5
    let _ := env.sched_releasefiles t
    let s7 := emit (.sched_releasefiles t) s6
    let s8 :=
      if !cfg.CONFIG_DISABLE_SIGNALS then
        emit (.sig_cleanup t) s7
      else s7
    .done s8

/-- The steps of `task_sigchild` that follow the accounting: the parent link is
overwritten, the signal is built and submitted, the lock is released.
`ptcb` is the address of the parent. -/
def task_sigchild_notify (cfg : Config) (t ptcb : Nat) (status : Int) (s2 : Sys) : Sys :=
  sched_unlock (emit (.sig_received ptcb (sigchild_info cfg (s2.tcbs t) status))
    (setTcb t { s2.tcbs t with parent := cfg.INVALID_PROCESS_ID } s2))

/-- A `DEBUGASSERT` of `task_sigchild` fails for the parent at address `ptcb`:
assertions are compiled in and, in child-status mode, the parent retains child
status but `task_findchild` finds no record; in counter mode, the counter of
the parent is zero. -/
def sigchild_assert_fails (cfg : Config) (ptcb : Nat) (s : Sys) : Bool :=
  cfg.CONFIG_DEBUG &&
    (if cfg.CONFIG_SCHED_CHILD_STATUS then
      decide (((s.tcbs ptcb).flags &&& cfg.TCB_FLAG_NOCLDWAIT) = 0)
        && (task_findchild (s.tcbs ptcb) s.getpid).isNone
    else
      decide ((s.tcbs ptcb).nchildren = 0))

/-- The store events of the first pass of the loop of `task_exitwakeup`: the
status, shifted, is written to the pending location if there is one. -/
def stat_delivery (stat_loc : Option Nat) (status : Int) : List Event :=
  match stat_loc with
  | some loc => [.stat_store loc (int32 (status * 2 ^ 8))]
  | none => []

/-- The first steps of `task_sigchild` for a process-like task: the scheduler
is locked and the parent is looked up in the pid table. -/
def task_sigchild_locked (t : Nat) (s : Sys) : Sys :=
  let s1 := sched_lock s
  emit (.sched_gettcb (s1.tcbs t).parent) s1

/-- The stores through `stat_loc` of a trace, in order: address and value. -/
def stat_stores (tr : List Event) : List (Nat × Int) :=
  tr.filterMap fun e =>
    match e with
    | .stat_store loc value => some (loc, value)
    | _ => none

/-- The events of the last four steps of `task_exithook` for a configuration:
`lib_flushall`, `task_removechildren`, `sched_releasefiles`, `sig_cleanup`,
each where it is compiled in. -/
def exithook_tail_events (cfg : Config) (t : Nat) : List Event :=
  (if 0 < cfg.CONFIG_NFILE_STREAMS then [.lib_flushall t] else [])
    ++ (if cfg.CONFIG_SCHED_HAVE_PARENT && cfg.CONFIG_SCHED_CHILD_STATUS then
          [.task_removechildren t] else [])
    ++ [.sched_releasefiles t]
    ++ (if !cfg.CONFIG_DISABLE_SIGNALS then [.sig_cleanup t] else [])
/-! ## Sample inputs -/

/-- A sample configuration: at-exit callbacks with four slots, parent tracking
by counter, assertions enabled. -/
def sample_config : Config :=
  { CONFIG_SCHED_ATEXIT := true
    CONFIG_SCHED_ONEXIT := false
    CONFIG_SCHED_ATEXIT_MAX := some 4
    CONFIG_SCHED_ONEXIT_MAX := some 4
    CONFIG_SCHED_HAVE_PARENT := true
    CONFIG_SCHED_CHILD_STATUS := false
    CONFIG_SCHED_WAITPID := true
    CONFIG_NFILE_STREAMS := 3
    CONFIG_DISABLE_SIGNALS := false
    CONFIG_DEBUG := true
    TCB_FLAG_TTYPE_MASK := 3
    TCB_FLAG_TTYPE_TASK := 0
    TCB_FLAG_NOCLDWAIT := 4
    CHILD_FLAG_EXITED := 1
    INVALID_PROCESS_ID := -1
    SIGCHLD := 4
    CLD_EXITED := 4 }

/-- The sample configuration with on-exit callbacks (four slots) instead of
at-exit callbacks. -/
def sample_config_onexit : Config :=
  { sample_config with CONFIG_SCHED_ONEXIT := true }

/-- A task record with nothing registered. -/
def sample_tcb : TCB :=
  { pid := 0
    parent := 0
    flags := 0
    nchildren := 0
    children := []
    atexitfunc := []
    onexitfunc := []
    onexitarg := []
    exitsem := { semcount := 0 }
    stat_loc := none }

/-- A state whose task records are all `tcb`, with an empty pid table. -/
def sample_sys (tcb : TCB) : Sys :=
  { tcbs := fun _ => tcb
    sched_gettcb := fun _ => none
    getpid := 0
    lockcount := 0
    intmem := fun _ => 0
    trace := [] }

/-- Collaborators that all report success. -/
def sample_collab : Collab :=
  { sig_received := fun _ _ => 0
    lib_flushall := fun _ => 0
    sched_releasefiles := fun _ => 0 }

/-- A record with at-exit callbacks 10, 11 and 13 in slots 0, 1 and 3. -/
def sample_atexit_sys : Sys :=
  sample_sys { sample_tcb with atexitfunc := [some 10, some 11, none, some 13] }

/-- A record with on-exit callbacks A (1, argument 1) then B (2, argument 2)
registered, in a configuration with four on-exit slots. -/
def sample_onexit_sys : Sys :=
  sample_sys { sample_tcb with
    onexitfunc := [some 1, some 2, none, none]
    onexitarg := [1, 2, 0, 0] }

/-- A parent (address 0, task id 10) with two live children and one of them
(address 1, task id 11), in counter mode.  The pid table knows both. -/
def sample_counter_sys : Sys :=
  { tcbs := fun a =>
      if a = 0 then { sample_tcb with pid := 10, parent := 1, nchildren := 2 }
      else { sample_tcb with pid := 11, parent := 10 }
    sched_gettcb := fun pid => if pid = 10 then some 0 else if pid = 11 then some 1 else none
    getpid := 11
    lockcount := 0
    intmem := fun _ => 0
    trace := [] }

/-- The sample configuration in child-status mode. -/
def sample_config_status : Config :=
  { sample_config with CONFIG_SCHED_CHILD_STATUS := true }

/-- A parent (address 0, task id 10) that retains child status and holds the
records of its two children, task 11 (address 1) and task 12 (address 2).
`running` is the id of the task that is running. -/
def sample_status_sys (running : Int) : Sys :=
  { tcbs := fun a =>
      if a = 0 then
        { sample_tcb with
          pid := 10, parent := 1
          children := [{ ch_flags := 2, ch_pid := 11, ch_status := 0 },
                       { ch_flags := 0, ch_pid := 12, ch_status := 0 }] }
      else if a = 1 then { sample_tcb with pid := 11, parent := 10 }
      else { sample_tcb with pid := 12, parent := 10 }
    sched_gettcb := fun pid =>
      if pid = 10 then some 0 else if pid = 11 then some 1 else if pid = 12 then some 2
      else none
    getpid := running
    lockcount := 0
    intmem := fun _ => 0
    trace := [] }

/-- A thread-like task (task-type bits 1) whose parent exists. -/
def sample_pthread_sys : Sys :=
  { sample_counter_sys with
    tcbs := fun a =>
      if a = 0 then { sample_tcb with pid := 10, parent := 1, nchildren := 2 }
      else { sample_tcb with pid := 11, parent := 10, flags := 1 } }

/-- A process-like task (address 1) whose recorded parent, task 10, is gone. -/
def sample_orphan_sys : Sys :=
  { sample_counter_sys with
    sched_gettcb := fun pid => if pid = 11 then some 1 else none }

/-- The sample configuration without parent tracking, where `task_exitwakeup`
is compiled in. -/
def sample_config_waitpid : Config :=
  { sample_config with CONFIG_SCHED_HAVE_PARENT := false }

/-- A task with two threads blocked on its exit semaphore and a pending status
location, address 7. -/
def sample_waiters_sys : Sys :=
  sample_sys { sample_tcb with exitsem := { semcount := -2 }, stat_loc := some 7 }

/-- A task with no thread blocked on its exit semaphore and a pending status
location, address 7. -/
def sample_nowaiter_sys : Sys :=
  sample_sys { sample_tcb with exitsem := { semcount := 0 }, stat_loc := some 7 }

/-- A parent (address 0, task id 10) with two live children, and one of them
(address 1, task id 11) with at-exit callbacks 10, 11 and 13 registered, in
counter mode. -/
def sample_hook_sys : Sys :=
  { sample_counter_sys with
    tcbs := fun a =>
      if a = 0 then { sample_tcb with pid := 10, parent := 1, nchildren := 2 }
      else { sample_tcb with
             pid := 11, parent := 10, atexitfunc := [some 10, some 11, none, some 13] } }

/-- Collaborators that all report failure. -/
def sample_collab_failing : Collab :=
  { sig_received := fun _ _ => -1
    lib_flushall := fun _ => -1
    sched_releasefiles := fun _ => -1 }

/-- The sample configuration in child-status mode with assertions compiled
out. -/
def sample_config_status_nodebug : Config :=
  { sample_config_status with CONFIG_DEBUG := false }

/-- A parent (address 0, task id 10) that retains child status but holds a
record for task 12 only; its child task 11 (address 1) is running. -/
def sample_norecord_sys : Sys :=
  { sample_status_sys 11 with
    tcbs := fun a =>
      if a = 0 then
        { sample_tcb with
          pid := 10, parent := 1
          children := [{ ch_flags := 0, ch_pid := 12, ch_status := 0 }] }
      else if a = 1 then { sample_tcb with pid := 11, parent := 10 }
      else { sample_tcb with pid := 12, parent := 10 } }

/-- A parent (address 0, task id 10) that has opted out of child-status
retention (`TCB_FLAG_NOCLDWAIT` set) with a counter value of 2, and its child
task 11 (address 1), which is running. -/
def sample_nocldwait_sys : Sys :=
  { sample_status_sys 11 with
    tcbs := fun a =>
      if a = 0 then { sample_tcb with pid := 10, parent := 1, flags := 4, nchildren := 2 }
      else { sample_tcb with pid := 11, parent := 10 } }

/-! # Theorems -/

/-! ## Slot arrays -/

theorem set_none_of_getD_none {α : Type} (l : List (Option α)) (i : Nat)
    (h : l.getD i none = none) : l.set i none = l := by
  induction l generalizing i with
  | nil => rfl
  | cons x xs ih =>
    cases i with
    | zero => simp at h; simp [h]
    | succ j => simp at h; simp [ih j (by simpa using h)]

theorem take_succ_reverse_reduceOption {α : Type} (l : List (Option α)) (n : Nat) :
    (l.take (n + 1)).reverse.reduceOption
      = (l.getD n none).toList ++ (l.take n).reverse.reduceOption := by
  rw [List.take_succ, List.reverse_append, List.reduceOption_append,
    List.getD_eq_getElem?_getD]
  cases h : l[n]? with
  | none => simp
  | some x => cases x <;> simp [List.reduceOption]

/-! ## task_atexit: lemmas -/

theorem task_atexit_body_eq (t i : Nat) (s : Sys) :
    task_atexit_body t i s
      = { s with
          tcbs := Function.update s.tcbs t
            { s.tcbs t with atexitfunc := (s.tcbs t).atexitfunc.set i none }
          trace := s.trace
            ++ (((s.tcbs t).atexitfunc.getD i none).toList.map Event.atexit_call) } := by
  unfold task_atexit_body
  cases h : (s.tcbs t).atexitfunc.getD i none with
  | none =>
    have h2 : (s.tcbs t).atexitfunc.getD i none = none := h
    simp [set_none_of_getD_none _ _ h2]
  | some f => simp [setTcb, emit]

theorem drop_set_self {α : Type} (l : List α) (n : Nat) (a : α) (h : n < l.length) :
    (l.set n a).drop n = a :: l.drop (n + 1) := by
  induction l generalizing n with
  | nil => simp at h
  | cons x xs ih =>
    cases n with
    | zero => simp
    | succ m => simpa using ih m (by simpa using h)

/-- A slot array with its first `n` slots nullified. -/
theorem set_none_clear {α : Type} (l : List (Option α)) (n : Nat) :
    List.replicate (min n (l.set n none).length) none ++ (l.set n none).drop n
      = List.replicate (min (n + 1) l.length) none ++ l.drop (n + 1) := by
  by_cases h : n < l.length
  · have h1 : min n l.length = n := by omega
    have h2 : min (n + 1) l.length = n + 1 := by omega
    have h3 : (l.set n none).drop n = none :: l.drop (n + 1) := drop_set_self l n none h
    simp [h1, h2, h3, List.replicate_succ']
  · have h1 : l.length ≤ n := by omega
    simp [List.set_eq_of_length_le h1, List.drop_of_length_le h1,
      List.drop_of_length_le (Nat.le_succ_of_le h1), Nat.min_eq_right h1,
      Nat.min_eq_right (Nat.le_succ_of_le h1)]

theorem task_atexit_loop_eq (t : Nat) (n : Nat) (s : Sys) :
    task_atexit_loop t n s
      = { s with
          tcbs := Function.update s.tcbs t
            { s.tcbs t with
              atexitfunc := List.replicate (min n (s.tcbs t).atexitfunc.length) none
                ++ (s.tcbs t).atexitfunc.drop n }
          trace := s.trace
            ++ (((s.tcbs t).atexitfunc.take n).reverse.reduceOption.map Event.atexit_call) } := by
  induction n generalizing s with
  | zero => simp [task_atexit_loop]
  | succ n ih =>
    rw [task_atexit_loop, ih, task_atexit_body_eq, take_succ_reverse_reduceOption]
    have hc := set_none_clear (s.tcbs t).atexitfunc n
    have ht : ((s.tcbs t).atexitfunc.set n none).take n = (s.tcbs t).atexitfunc.take n := by
      rw [List.set_take, List.set_eq_of_length_le (List.length_take_le _ _)]
    simp only [Function.update_same, Function.update_idem, hc, ht, List.map_append,
      List.append_assoc]

theorem task_atexit_eq_loop (cfg : Config) (t : Nat) (s : Sys) :
    task_atexit cfg t s = task_atexit_loop t (atexit_slots cfg) s := by
  unfold task_atexit atexit_slots
  split
  · split
    · split <;> rfl
    · rfl
  · rfl

theorem reduceOption_reverse_registered {α : Type} (fs : List α) (k : Nat) :
    (fs.map some ++ List.replicate k none).reverse.reduceOption = fs.reverse := by
  rw [List.reverse_append, List.reduceOption_append, List.reverse_replicate]
  have h1 : (List.replicate k (none : Option α)).reduceOption = [] := by
    induction k with
    | zero => rfl
    | succ k ih => rw [List.replicate_succ, List.reduceOption_cons_of_none, ih]
  have h2 : (fs.map some).reverse.reduceOption = fs.reverse := by
    rw [← List.map_reverse]
    generalize fs.reverse = l
    induction l with
    | nil => rfl
    | cons x xs ih => rw [List.map_cons, List.reduceOption_cons_of_some, ih]
  rw [h1, h2, List.nil_append]

/-! ## task_onexit: lemmas -/

theorem task_onexit_body_eq (t : Nat) (status : Int) (i : Nat) (s : Sys) :
    task_onexit_body t status i s
      = { s with
          tcbs := Function.update s.tcbs t
            { s.tcbs t with onexitfunc := (s.tcbs t).onexitfunc.set i none }
          trace := s.trace
            ++ (onexit_event (s.tcbs t).onexitfunc (s.tcbs t).onexitarg status i).toList } := by
  unfold task_onexit_body onexit_event
  cases h : (s.tcbs t).onexitfunc.getD i none with
  | none =>
    have h2 : (s.tcbs t).onexitfunc.getD i none = none := h
    simp [set_none_of_getD_none _ _ h2]
  | some f => simp [setTcb, emit]

theorem getD_set_of_ne {α : Type} (l : List α) (n i : Nat) (a d : α) (h : i ≠ n) :
    (l.set n a).getD i d = l.getD i d := by
  simp only [List.getD_eq_getElem?_getD, List.getElem?_set]
  rw [if_neg (Ne.symm h)]

theorem task_onexit_loop_eq (t : Nat) (status : Int) (n : Nat) (s : Sys) :
    task_onexit_loop t status n s
      = { s with
          tcbs := Function.update s.tcbs t
            { s.tcbs t with
              onexitfunc := List.replicate (min n (s.tcbs t).onexitfunc.length) none
                ++ (s.tcbs t).onexitfunc.drop n }
          trace := s.trace
            ++ (List.range n).reverse.filterMap
                (onexit_event (s.tcbs t).onexitfunc (s.tcbs t).onexitarg status) } := by
  induction n generalizing s with
  | zero => simp [task_onexit_loop]
  | succ n ih =>
    rw [task_onexit_loop, ih, task_onexit_body_eq]
    have hc := set_none_clear (s.tcbs t).onexitfunc n
    have hf : (List.range n).reverse.filterMap
          (onexit_event ((s.tcbs t).onexitfunc.set n none) (s.tcbs t).onexitarg status)
        = (List.range n).reverse.filterMap
          (onexit_event (s.tcbs t).onexitfunc (s.tcbs t).onexitarg status) := by
      apply List.filterMap_congr
      intro i hi
      have hlt : i < n := by simpa using hi
      unfold onexit_event
      rw [getD_set_of_ne _ _ _ _ _ (Nat.ne_of_lt hlt)]
    have hr : (List.range (n + 1)).reverse.filterMap
          (onexit_event (s.tcbs t).onexitfunc (s.tcbs t).onexitarg status)
        = (onexit_event (s.tcbs t).onexitfunc (s.tcbs t).onexitarg status n).toList
          ++ (List.range n).reverse.filterMap
            (onexit_event (s.tcbs t).onexitfunc (s.tcbs t).onexitarg status) := by
      rw [List.range_succ, List.reverse_append, List.filterMap_append]
      cases h : onexit_event (s.tcbs t).onexitfunc (s.tcbs t).onexitarg status n <;>
        simp [List.filterMap_cons, h]
    simp only [Function.update_same, Function.update_idem, hc, hf, hr, List.append_assoc]

theorem task_onexit_eq_loop (cfg : Config) (t : Nat) (status : Int) (s : Sys) :
    task_onexit cfg t status s = task_onexit_loop t status (onexit_slots cfg) s := by
  unfold task_onexit onexit_slots
  split
  · split
    · split <;> rfl
    · rfl
  · rfl

theorem range_filterMap_registered (status : Int) (regs : List (Nat × Nat))
    (restf : List (Option Nat)) (resta : List Nat) (n : Nat)
    (hrest : ∀ x ∈ restf, x = none) (hn : regs.length ≤ n) :
    (List.range n).filterMap
        (onexit_event (regs.map (fun r => some r.1) ++ restf)
          (regs.map (fun r => r.2) ++ resta) status)
      = regs.map fun r => Event.onexit_call r.1 status r.2 := by
  induction regs generalizing n with
  | nil =>
    simp only [List.map_nil, List.nil_append, List.filterMap_eq_nil_iff]
    intro i _
    unfold onexit_event
    have : restf.getD i none = none := by
      rw [List.getD_eq_getElem?_getD]
      cases h : restf[i]? with
      | none => rfl
      | some x => exact hrest x (List.getElem?_mem h)
    rw [this]; rfl
  | cons r rs ih =>
    cases n with
    | zero => simp at hn
    | succ m =>
      rw [List.range_succ_eq_map, List.filterMap_cons, List.filterMap_map]
      have h0 : onexit_event (List.map (fun r => some r.1) (r :: rs) ++ restf)
          (List.map (fun r => r.2) (r :: rs) ++ resta) status 0
          = some (Event.onexit_call r.1 status r.2) := by
        simp [onexit_event]
      have hs : (onexit_event (List.map (fun r => some r.1) (r :: rs) ++ restf)
          (List.map (fun r => r.2) (r :: rs) ++ resta) status) ∘ Nat.succ
          = onexit_event (List.map (fun r => some r.1) rs ++ restf)
            (List.map (fun r => r.2) rs ++ resta) status := by
        funext i
        simp [onexit_event]
      rw [h0, hs, ih m (by simpa using hn)]
      rfl

/-! ## Steps that leave the callbacks alone -/

theorem callbacks_untouched_refl (s : Sys) : callbacks_untouched s s :=
  ⟨fun _ => rfl, fun _ => rfl, rfl, rfl⟩

theorem callbacks_untouched_trans {s1 s2 s3 : Sys} (h12 : callbacks_untouched s1 s2)
    (h23 : callbacks_untouched s2 s3) : callbacks_untouched s1 s3 :=
  ⟨fun a => (h23.1 a).trans (h12.1 a), fun a => (h23.2.1 a).trans (h12.2.1 a),
    h23.2.2.1.trans h12.2.2.1, h23.2.2.2.trans h12.2.2.2⟩

theorem task_exithook_eq_rest (cfg : Config) (env : Collab) (t : Nat) (status : Int) (s : Sys) :
    task_exithook cfg env t status s
      = task_exithook_rest cfg env t status (task_onexit cfg t status (task_atexit cfg t s)) :=
  rfl

theorem callbacks_untouched_setTcb (a : Nat) (v : TCB) (s : Sys)
    (h1 : v.atexitfunc = (s.tcbs a).atexitfunc) (h2 : v.onexitfunc = (s.tcbs a).onexitfunc) :
    callbacks_untouched s (setTcb a v s) := by
  refine ⟨fun b => ?_, fun b => ?_, rfl, rfl⟩
  · by_cases hb : b = a
    · subst hb; simp [setTcb, h1]
    · simp [setTcb, Function.update_noteq hb]
  · by_cases hb : b = a
    · subst hb; simp [setTcb, h2]
    · simp [setTcb, Function.update_noteq hb]

theorem callbacks_untouched_emit (e : Event) (s : Sys)
    (h1 : ∀ f, e ≠ .atexit_call f) (h2 : ∀ f st arg, e ≠ .onexit_call f st arg) :
    callbacks_untouched s (emit e s) := by
  refine ⟨fun _ => rfl, fun _ => rfl, ?_, ?_⟩
  · cases e <;> simp_all [emit, atexit_calls]
  · cases e <;> simp_all [emit, onexit_calls]

theorem callbacks_untouched_sched_lock (s : Sys) : callbacks_untouched s (sched_lock s) :=
  callbacks_untouched_emit .sched_lock { s with lockcount := s.lockcount + 1 }
    (fun _ => by simp) (fun _ _ _ => by simp)

theorem callbacks_untouched_task_sigchild_locked (t : Nat) (s : Sys) :
    callbacks_untouched s (task_sigchild_locked t s) :=
  callbacks_untouched_trans (callbacks_untouched_sched_lock s)
    (callbacks_untouched_emit (.sched_gettcb (s.tcbs t).parent) _ (fun _ => by simp)
      (fun _ _ _ => by simp))

theorem callbacks_untouched_sched_unlock (s : Sys) : callbacks_untouched s (sched_unlock s) :=
  callbacks_untouched_emit .sched_unlock { s with lockcount := s.lockcount - 1 }
    (fun _ => by simp) (fun _ _ _ => by simp)

theorem callbacks_untouched_andThen (s : Sys) (r : Run) (k : Sys → Run)
    (h1 : callbacks_untouched s r.state)
    (h2 : ∀ s2, callbacks_untouched s2 (k s2).state) :
    callbacks_untouched s (r.andThen k).state := by
  cases r with
  | done s1 => exact callbacks_untouched_trans h1 (h2 s1)
  | fatal s1 => exact h1

/-! ## task_sigchild: the paths -/

theorem task_sigchild_compiled_out (cfg : Config) (env : Collab) (t : Nat) (status : Int)
    (s : Sys) (hp : cfg.CONFIG_SCHED_HAVE_PARENT = false) :
    task_sigchild cfg env t status s = .done s := by
  unfold task_sigchild
  rw [if_neg (by simp [hp])]

theorem task_sigchild_not_task (cfg : Config) (env : Collab) (t : Nat) (status : Int)
    (s : Sys) (ht : ((s.tcbs t).flags &&& cfg.TCB_FLAG_TTYPE_MASK) ≠ cfg.TCB_FLAG_TTYPE_TASK) :
    task_sigchild cfg env t status s = .done s := by
  simp [task_sigchild, ht]

theorem task_sigchild_no_parent (cfg : Config) (env : Collab) (t : Nat) (status : Int)
    (s : Sys) (hp : cfg.CONFIG_SCHED_HAVE_PARENT = true)
    (ht : ((s.tcbs t).flags &&& cfg.TCB_FLAG_TTYPE_MASK) = cfg.TCB_FLAG_TTYPE_TASK)
    (hl : s.sched_gettcb (s.tcbs t).parent = none) :
    task_sigchild cfg env t status s = .done (sched_unlock (task_sigchild_locked t s)) := by
  unfold task_sigchild
  rw [if_pos hp, if_pos ht]
  have hl2 : (emit (.sched_gettcb ((sched_lock s).tcbs t).parent) (sched_lock s)).sched_gettcb
      ((emit (.sched_gettcb ((sched_lock s).tcbs t).parent) (sched_lock s)).tcbs t).parent
      = none := hl
  simp only [hl2]
  rfl

theorem task_sigchild_parent (cfg : Config) (env : Collab) (t : Nat) (status : Int)
    (s : Sys) (ptcb : Nat) (hp : cfg.CONFIG_SCHED_HAVE_PARENT = true)
    (ht : ((s.tcbs t).flags &&& cfg.TCB_FLAG_TTYPE_MASK) = cfg.TCB_FLAG_TTYPE_TASK)
    (hl : s.sched_gettcb (s.tcbs t).parent = some ptcb) :
    task_sigchild cfg env t status s
      = (task_sigchild_accounting cfg ptcb status (task_sigchild_locked t s)).andThen fun s2 =>
          .done (task_sigchild_notify cfg t ptcb status s2) := by
  unfold task_sigchild
  rw [if_pos hp, if_pos ht]
  have hl2 : (emit (.sched_gettcb ((sched_lock s).tcbs t).parent) (sched_lock s)).sched_gettcb
      ((emit (.sched_gettcb ((sched_lock s).tcbs t).parent) (sched_lock s)).tcbs t).parent
      = some ptcb := hl
  simp only [hl2]
  show (task_sigchild_accounting cfg ptcb status (task_sigchild_locked t s)).andThen _ = _
  congr 1
  funext s2
  simp [task_sigchild_notify, sigchild_info, setTcb]

theorem task_sigchild_accounting_callbacks_untouched (cfg : Config) (ptcb : Nat)
    (status : Int) (s : Sys) :
    callbacks_untouched s (task_sigchild_accounting cfg ptcb status s).state := by
  unfold task_sigchild_accounting
  dsimp only
  split
  · split
    · split
      · exact callbacks_untouched_refl s
      · split
        · exact callbacks_untouched_setTcb _ _ _ rfl rfl
        · exact callbacks_untouched_refl s
    · exact callbacks_untouched_refl s
  · split
    · exact callbacks_untouched_refl s
    · exact callbacks_untouched_setTcb _ _ _ rfl rfl

theorem task_sigchild_callbacks_untouched (cfg : Config) (env : Collab) (t : Nat)
    (status : Int) (s : Sys) :
    callbacks_untouched s (task_sigchild cfg env t status s).state := by
  by_cases hp : cfg.CONFIG_SCHED_HAVE_PARENT = true
  · by_cases ht : ((s.tcbs t).flags &&& cfg.TCB_FLAG_TTYPE_MASK) = cfg.TCB_FLAG_TTYPE_TASK
    · cases hl : s.sched_gettcb (s.tcbs t).parent with
      | none =>
        rw [task_sigchild_no_parent cfg env t status s hp ht hl]
        exact callbacks_untouched_trans (callbacks_untouched_task_sigchild_locked t s)
          (callbacks_untouched_sched_unlock _)
      | some ptcb =>
        rw [task_sigchild_parent cfg env t status s ptcb hp ht hl]
        refine callbacks_untouched_trans (callbacks_untouched_task_sigchild_locked t s)
          (callbacks_untouched_andThen _ _ _
            (task_sigchild_accounting_callbacks_untouched cfg _ status _) ?_)
        intro s2
        show callbacks_untouched s2 (task_sigchild_notify cfg t ptcb status s2)
        unfold task_sigchild_notify
        exact callbacks_untouched_trans
          (callbacks_untouched_setTcb t { s2.tcbs t with parent := cfg.INVALID_PROCESS_ID } s2
            rfl rfl)
          (callbacks_untouched_trans
            (callbacks_untouched_emit
              (.sig_received ptcb (sigchild_info cfg (s2.tcbs t) status)) _
              (fun _ => by simp) (fun _ _ _ => by simp))
            (callbacks_untouched_sched_unlock _))
    · rw [task_sigchild_not_task cfg env t status s ht]
      exact callbacks_untouched_refl s
  · rw [task_sigchild_compiled_out cfg env t status s (by simpa using hp)]
    exact callbacks_untouched_refl s

/-! ## task_exitwakeup: lemmas -/

theorem task_exitwakeup_body_of_no_stat_loc (t : Nat) (status : Int) (s : Sys)
    (h : (s.tcbs t).stat_loc = none) :
    task_exitwakeup_body t status s = sem_post t s := by
  unfold task_exitwakeup_body
  simp only [h]

theorem sem_post_callbacks_untouched (t : Nat) (s : Sys) :
    callbacks_untouched s (sem_post t s) :=
  callbacks_untouched_trans
    (callbacks_untouched_setTcb t
      { s.tcbs t with exitsem := { semcount := (s.tcbs t).exitsem.semcount + 1 } } s rfl rfl)
    (callbacks_untouched_emit (.sem_post t) _ (fun _ => by simp) (fun _ _ _ => by simp))

theorem task_exitwakeup_body_callbacks_untouched (t : Nat) (status : Int) (s : Sys) :
    callbacks_untouched s (task_exitwakeup_body t status s) := by
  unfold task_exitwakeup_body
  cases h : (s.tcbs t).stat_loc with
  | none => exact sem_post_callbacks_untouched t s
  | some loc =>
    refine callbacks_untouched_trans ?_ (sem_post_callbacks_untouched t _)
    exact callbacks_untouched_trans
      (callbacks_untouched_emit (.stat_store loc (int32 (status * 2 ^ 8)))
        { s with intmem := Function.update s.intmem loc (int32 (status * 2 ^ 8)) }
        (fun _ => by simp) (fun _ _ _ => by simp))
      (callbacks_untouched_setTcb t
        { s.tcbs t with stat_loc := none }
        (emit (.stat_store loc (int32 (status * 2 ^ 8)))
          { s with intmem := Function.update s.intmem loc (int32 (status * 2 ^ 8)) })
        rfl rfl)

theorem task_exitwakeup_loop_callbacks_untouched (t : Nat) (status : Int) (s : Sys) :
    callbacks_untouched s (task_exitwakeup_loop t status s) := by
  induction s using task_exitwakeup_loop.induct t status with
  | case1 s h ih =>
    rw [task_exitwakeup_loop, if_pos h]
    exact callbacks_untouched_trans (task_exitwakeup_body_callbacks_untouched t status s) ih
  | case2 s h =>
    rw [task_exitwakeup_loop, if_neg h]
    exact callbacks_untouched_refl s

theorem task_exitwakeup_callbacks_untouched (cfg : Config) (t : Nat) (status : Int) (s : Sys) :
    callbacks_untouched s (task_exitwakeup cfg t status s) := by
  unfold task_exitwakeup
  split
  · exact task_exitwakeup_loop_callbacks_untouched t status s
  · exact callbacks_untouched_refl s

/-! ## task_exithook: the callbacks -/

theorem task_removechildren_callbacks_untouched (t : Nat) (s : Sys) :
    callbacks_untouched s (task_removechildren t s) :=
  callbacks_untouched_trans
    (callbacks_untouched_setTcb t { s.tcbs t with children := [] } s rfl rfl)
    (callbacks_untouched_emit (.task_removechildren t) _ (fun _ => by simp)
      (fun _ _ _ => by simp))

theorem task_exithook_rest_callbacks_untouched (cfg : Config) (env : Collab) (t : Nat)
    (status : Int) (s : Sys) :
    callbacks_untouched s (task_exithook_rest cfg env t status s).state := by
  unfold task_exithook_rest
  refine callbacks_untouched_andThen s _ _ (task_sigchild_callbacks_untouched cfg env t status s) ?_
  intro s3
  dsimp only [Run.state]
  have h4 := task_exitwakeup_callbacks_untouched cfg t status s3
  generalize task_exitwakeup cfg t status s3 = s4 at h4
  have h5 : callbacks_untouched s4
      (if 0 < cfg.CONFIG_NFILE_STREAMS then emit (.lib_flushall t) s4 else s4) := by
    split
    · exact callbacks_untouched_emit _ _ (fun _ => by simp) (fun _ _ _ => by simp)
    · exact callbacks_untouched_refl s4
  generalize (if 0 < cfg.CONFIG_NFILE_STREAMS then emit (.lib_flushall t) s4 else s4) = s5 at h5
  have h6 : callbacks_untouched s5
      (if (cfg.CONFIG_SCHED_HAVE_PARENT && cfg.CONFIG_SCHED_CHILD_STATUS) = true then
        task_removechildren t s5 else s5) := by
    split
    · exact task_removechildren_callbacks_untouched t s5
    · exact callbacks_untouched_refl s5
  generalize (if (cfg.CONFIG_SCHED_HAVE_PARENT && cfg.CONFIG_SCHED_CHILD_STATUS) = true then
        task_removechildren t s5 else s5) = s6 at h6
  have h7 : callbacks_untouched s6 (emit (.sched_releasefiles t) s6) :=
    callbacks_untouched_emit _ _ (fun _ => by simp) (fun _ _ _ => by simp)
  have h8 : callbacks_untouched (emit (.sched_releasefiles t) s6)
      (if (!cfg.CONFIG_DISABLE_SIGNALS) = true then
        emit (.sig_cleanup t) (emit (.sched_releasefiles t) s6)
        else emit (.sched_releasefiles t) s6) := by
    split
    · exact callbacks_untouched_emit _ _ (fun _ => by simp) (fun _ _ _ => by simp)
    · exact callbacks_untouched_refl _
  exact callbacks_untouched_trans h4 (callbacks_untouched_trans h5
    (callbacks_untouched_trans h6 (callbacks_untouched_trans h7 h8)))

theorem task_atexit_slots_after (cfg : Config) (t : Nat) (s : Sys)
    (hlen : (s.tcbs t).atexitfunc.length = atexit_slots cfg) :
    ((task_atexit cfg t s).tcbs t).atexitfunc = List.replicate (atexit_slots cfg) none := by
  rw [task_atexit_eq_loop, task_atexit_loop_eq, ← hlen]
  simp

theorem task_atexit_onexitfunc (cfg : Config) (t : Nat) (s : Sys) (a : Nat) :
    ((task_atexit cfg t s).tcbs a).onexitfunc = (s.tcbs a).onexitfunc := by
  rw [task_atexit_eq_loop, task_atexit_loop_eq]
  by_cases h : a = t
  · subst h; simp
  · simp [Function.update_noteq h]

theorem task_onexit_slots_after (cfg : Config) (t : Nat) (status : Int) (s : Sys)
    (hlen : (s.tcbs t).onexitfunc.length = onexit_slots cfg) :
    ((task_onexit cfg t status s).tcbs t).onexitfunc
      = List.replicate (onexit_slots cfg) none := by
  rw [task_onexit_eq_loop, task_onexit_loop_eq, ← hlen]
  simp

theorem task_onexit_atexitfunc (cfg : Config) (t : Nat) (status : Int) (s : Sys) (a : Nat) :
    ((task_onexit cfg t status s).tcbs a).atexitfunc = (s.tcbs a).atexitfunc := by
  rw [task_onexit_eq_loop, task_onexit_loop_eq]
  by_cases h : a = t
  · subst h; simp
  · simp [Function.update_noteq h]

theorem task_atexit_callbacks_untouched_of_empty (cfg : Config) (t : Nat) (s : Sys)
    (h : (s.tcbs t).atexitfunc = List.replicate (atexit_slots cfg) none) :
    callbacks_untouched s (task_atexit cfg t s) := by
  have hk : (s.tcbs t).atexitfunc.reverse.reduceOption = [] := by
    have := reduceOption_reverse_registered ([] : List Nat) (atexit_slots cfg)
    simpa [h] using this
  have hlen : (s.tcbs t).atexitfunc.length = atexit_slots cfg := by simp [h]
  refine ⟨fun a => ?_, fun a => task_atexit_onexitfunc cfg t s a, ?_, ?_⟩
  · by_cases ha : a = t
    · subst ha; rw [task_atexit_slots_after cfg a s hlen, h]
    · rw [task_atexit_eq_loop, task_atexit_loop_eq]
      simp [Function.update_noteq ha]
  · rw [task_atexit_eq_loop, task_atexit_loop_eq, ← hlen]
    simp [hk]
  · rw [task_atexit_eq_loop, task_atexit_loop_eq, ← hlen]
    simp [hk]

theorem task_onexit_callbacks_untouched_of_empty (cfg : Config) (t : Nat) (status : Int)
    (s : Sys) (h : (s.tcbs t).onexitfunc = List.replicate (onexit_slots cfg) none) :
    callbacks_untouched s (task_onexit cfg t status s) := by
  have hk : (List.range (onexit_slots cfg)).reverse.filterMap
      (onexit_event (s.tcbs t).onexitfunc (s.tcbs t).onexitarg status) = [] := by
    have := range_filterMap_registered status [] (List.replicate (onexit_slots cfg) none)
      (s.tcbs t).onexitarg (onexit_slots cfg) (fun x hx => List.eq_of_mem_replicate hx)
      (Nat.zero_le _)
    rw [List.filterMap_reverse, h]
    simpa using this
  have hlen : (s.tcbs t).onexitfunc.length = onexit_slots cfg := by simp [h]
  refine ⟨fun a => task_onexit_atexitfunc cfg t status s a, fun a => ?_, ?_, ?_⟩
  · by_cases ha : a = t
    · subst ha; rw [task_onexit_slots_after cfg a status s hlen, h]
    · rw [task_onexit_eq_loop, task_onexit_loop_eq]
      simp [Function.update_noteq ha]
  · rw [task_onexit_eq_loop, task_onexit_loop_eq, hk]
    simp
  · rw [task_onexit_eq_loop, task_onexit_loop_eq, hk]
    simp

/-! ## task_sigchild: the accounting -/

theorem task_sigchild_accounting_counter (cfg : Config) (ptcb : Nat) (status : Int) (s : Sys)
    (hcs : cfg.CONFIG_SCHED_CHILD_STATUS = false)
    (hok : cfg.CONFIG_DEBUG = false ∨ (s.tcbs ptcb).nchildren ≠ 0) :
    task_sigchild_accounting cfg ptcb status s
      = .done (setTcb ptcb
          { s.tcbs ptcb with nchildren := nchildren_dec (s.tcbs ptcb).nchildren } s) := by
  unfold task_sigchild_accounting
  rw [if_neg (by simp [hcs]), if_neg]
  rcases hok with h | h
  · simp [h]
  · simp [h]

theorem nchildren_dec_of_pos (n : Nat) (hpos : 0 < n) (hrange : n < 2 ^ 16) :
    nchildren_dec n = n - 1 := by
  unfold nchildren_dec
  omega

theorem signals_append (tr1 tr2 : List Event) :
    signals (tr1 ++ tr2) = signals tr1 ++ signals tr2 := by
  simp [signals]

theorem task_sigchild_notify_tcbs (cfg : Config) (t ptcb : Nat) (status : Int) (s2 : Sys) :
    (task_sigchild_notify cfg t ptcb status s2).tcbs
      = Function.update s2.tcbs t { s2.tcbs t with parent := cfg.INVALID_PROCESS_ID } :=
  rfl

theorem task_sigchild_notify_trace (cfg : Config) (t ptcb : Nat) (status : Int) (s2 : Sys) :
    (task_sigchild_notify cfg t ptcb status s2).trace
      = s2.trace ++ [.sig_received ptcb (sigchild_info cfg (s2.tcbs t) status), .sched_unlock] := by
  simp [task_sigchild_notify, sched_unlock, emit, setTcb]

theorem task_sigchild_notify_sched_gettcb (cfg : Config) (t ptcb : Nat) (status : Int)
    (s2 : Sys) :
    (task_sigchild_notify cfg t ptcb status s2).sched_gettcb = s2.sched_gettcb :=
  rfl

theorem signals_sched_lock (s : Sys) : signals (sched_lock s).trace = signals s.trace := by
  simp [sched_lock, emit, signals]

theorem signals_task_sigchild_locked (t : Nat) (s : Sys) :
    signals (task_sigchild_locked t s).trace = signals s.trace := by
  simp [task_sigchild_locked, sched_lock, emit, signals]

theorem signals_sched_unlock (s : Sys) : signals (sched_unlock s).trace = signals s.trace := by
  simp [sched_unlock, emit, signals]

theorem signals_task_sigchild_notify (cfg : Config) (t ptcb : Nat) (status : Int) (s2 : Sys) :
    signals (task_sigchild_notify cfg t ptcb status s2).trace
      = signals s2.trace ++ [(ptcb, sigchild_info cfg (s2.tcbs t) status)] := by
  rw [task_sigchild_notify_trace]
  simp [signals]

/-! ## Child status records -/

theorem findchild_some (l : List child_status_s) (pid : Int) (c : Nat)
    (h : findchild l pid = some c) : ∃ r, l[c]? = some r ∧ r.ch_pid = pid := by
  induction l generalizing c with
  | nil => simp [findchild] at h
  | cons x xs ih =>
    unfold findchild at h
    by_cases hx : x.ch_pid = pid
    · rw [if_pos hx] at h
      cases h
      exact ⟨x, by simp, hx⟩
    · rw [if_neg hx] at h
      cases hf : findchild xs pid with
      | none => simp [hf] at h
      | some d =>
        rw [hf] at h
        cases h
        obtain ⟨r, hr, hp⟩ := ih d hf
        exact ⟨r, by simpa using hr, hp⟩

theorem child_update_length (f : child_status_s → child_status_s) (c : Nat)
    (l : List child_status_s) : (child_update f c l).length = l.length := by
  induction l generalizing c with
  | nil => cases c <;> rfl
  | cons x xs ih =>
    cases c with
    | zero => rfl
    | succ d => simp [child_update, ih d]

theorem child_update_getElem?_self (f : child_status_s → child_status_s) (c : Nat)
    (l : List child_status_s) : (child_update f c l)[c]? = l[c]?.map f := by
  induction l generalizing c with
  | nil => cases c <;> rfl
  | cons x xs ih =>
    cases c with
    | zero => simp [child_update]
    | succ d => simpa [child_update] using ih d

theorem child_update_getElem?_of_ne (f : child_status_s → child_status_s) (c i : Nat)
    (l : List child_status_s) (h : i ≠ c) : (child_update f c l)[i]? = l[i]? := by
  induction l generalizing c i with
  | nil => cases c <;> rfl
  | cons x xs ih =>
    cases c with
    | zero =>
      cases i with
      | zero => exact absurd rfl h
      | succ j => simp [child_update]
    | succ d =>
      cases i with
      | zero => simp [child_update]
      | succ j => simpa [child_update] using ih d j (by omega)

theorem or_and_self_flag (x e : Nat) : (x ||| e) &&& e = e := by
  apply Nat.eq_of_testBit_eq
  intro i
  simp only [Nat.testBit_and, Nat.testBit_or]
  cases x.testBit i <;> cases e.testBit i <;> rfl

theorem or_testBit_of_clear (x e i : Nat) (h : e.testBit i = false) :
    (x ||| e).testBit i = x.testBit i := by
  simp [Nat.testBit_or, h]

theorem task_sigchild_accounting_status (cfg : Config) (ptcb : Nat) (status : Int) (s : Sys)
    (c : Nat) (hcs : cfg.CONFIG_SCHED_CHILD_STATUS = true)
    (hret : ((s.tcbs ptcb).flags &&& cfg.TCB_FLAG_NOCLDWAIT) = 0)
    (hrec : task_findchild (s.tcbs ptcb) s.getpid = some c) :
    task_sigchild_accounting cfg ptcb status s
      = .done (setTcb ptcb
          { s.tcbs ptcb with
            children := child_update
              (fun r => { r with ch_flags := r.ch_flags ||| cfg.CHILD_FLAG_EXITED,
                                 ch_status := status })
              c (s.tcbs ptcb).children } s) := by
  unfold task_sigchild_accounting
  rw [if_pos hcs, if_pos hret]
  simp [hrec]

theorem task_sigchild_accounting_trace (cfg : Config) (ptcb : Nat) (status : Int) (s : Sys) :
    (task_sigchild_accounting cfg ptcb status s).state.trace = s.trace := by
  unfold task_sigchild_accounting
  dsimp only
  split
  · split
    · split
      · rfl
      · split <;> rfl
    · rfl
  · split <;> rfl

theorem task_sigchild_accounting_pid (cfg : Config) (ptcb : Nat) (status : Int) (s : Sys)
    (a : Nat) :
    ((task_sigchild_accounting cfg ptcb status s).state.tcbs a).pid = (s.tcbs a).pid := by
  have hset : ∀ v : TCB, v.pid = (s.tcbs ptcb).pid →
      ((setTcb ptcb v s).tcbs a).pid = (s.tcbs a).pid := by
    intro v hv
    by_cases ha : a = ptcb
    · subst ha; simp [setTcb, hv]
    · simp [setTcb, Function.update_noteq ha]
  unfold task_sigchild_accounting
  dsimp only
  split
  · split
    · split
      · rfl
      · split
        · exact hset _ rfl
        · rfl
    · rfl
  · split
    · rfl
    · exact hset _ rfl

theorem task_sigchild_accounting_returned (cfg : Config) (ptcb : Nat) (status : Int)
    (s : Sys) :
    (task_sigchild_accounting cfg ptcb status s).returned = !sigchild_assert_fails cfg ptcb s := by
  unfold task_sigchild_accounting sigchild_assert_fails
  dsimp only
  by_cases hcs : cfg.CONFIG_SCHED_CHILD_STATUS = true
  · rw [if_pos hcs, if_pos hcs]
    by_cases hret : ((s.tcbs ptcb).flags &&& cfg.TCB_FLAG_NOCLDWAIT) = 0
    · rw [if_pos hret]
      cases hd : cfg.CONFIG_DEBUG <;> cases hc : task_findchild (s.tcbs ptcb) s.getpid <;>
        simp [Run.returned, hret]
    · rw [if_neg hret]
      simp [Run.returned, hret]
  · rw [if_neg hcs, if_neg hcs]
    cases hd : cfg.CONFIG_DEBUG <;> by_cases hn : (s.tcbs ptcb).nchildren = 0 <;>
      simp [Run.returned, hn]

/-! ## task_exitwakeup: the loop -/

theorem task_exitwakeup_loop_of_nonneg (t : Nat) (status : Int) (s : Sys)
    (h : 0 ≤ (s.tcbs t).exitsem.semcount) : task_exitwakeup_loop t status s = s := by
  rw [task_exitwakeup_loop, if_neg (by omega)]

theorem sem_t_eta (x : sem_t) (v : Int) (h : x.semcount = v) : x = { semcount := v } := by
  cases x
  simp_all

theorem task_exitwakeup_loop_no_stat_loc (t : Nat) (status : Int) (n : Nat) (s : Sys)
    (hloc : (s.tcbs t).stat_loc = none)
    (hn : (s.tcbs t).exitsem.semcount = -(n : Int)) :
    task_exitwakeup_loop t status s
      = { s with
          tcbs := Function.update s.tcbs t { s.tcbs t with exitsem := { semcount := 0 } }
          trace := s.trace ++ List.replicate n (.sem_post t) } := by
  induction n generalizing s with
  | zero =>
    rw [task_exitwakeup_loop_of_nonneg t status s (by simp [hn])]
    have he : (s.tcbs t).exitsem = { semcount := 0 } := sem_t_eta _ _ (by simpa using hn)
    have hu : Function.update s.tcbs t { s.tcbs t with exitsem := { semcount := 0 } }
        = s.tcbs := by
      rw [← he]
      exact Function.update_eq_self t s.tcbs
    simp [hu]
  | succ n ih =>
    rw [task_exitwakeup_loop, if_pos (by rw [hn]; push_cast; omega),
      task_exitwakeup_body_of_no_stat_loc t status s hloc]
    have h1 : ((sem_post t s).tcbs t).stat_loc = none := by
      simp [sem_post, setTcb, emit, hloc]
    have h2 : ((sem_post t s).tcbs t).exitsem.semcount = -(n : Int) := by
      simp [sem_post, setTcb, emit, hn]
    rw [ih (sem_post t s) h1 h2]
    simp [sem_post, setTcb, emit, List.replicate_succ]

theorem task_exitwakeup_loop_blocked (t : Nat) (status : Int) (n : Nat) (s : Sys)
    (hn : (s.tcbs t).exitsem.semcount = -((n : Int) + 1)) :
    task_exitwakeup_loop t status s
      = { s with
          tcbs := Function.update s.tcbs t
            { s.tcbs t with exitsem := { semcount := 0 }, stat_loc := none }
          intmem :=
            match (s.tcbs t).stat_loc with
            | some loc => Function.update s.intmem loc (int32 (status * 2 ^ 8))
            | none => s.intmem
          trace := s.trace ++ stat_delivery (s.tcbs t).stat_loc status
            ++ List.replicate (n + 1) (.sem_post t) } := by
  rw [task_exitwakeup_loop, if_pos (by rw [hn]; omega)]
  have h1 : ((task_exitwakeup_body t status s).tcbs t).stat_loc = none := by
    unfold task_exitwakeup_body
    cases h : (s.tcbs t).stat_loc <;> simp [sem_post, setTcb, emit, h]
  have h2 : ((task_exitwakeup_body t status s).tcbs t).exitsem.semcount = -(n : Int) := by
    unfold task_exitwakeup_body
    cases h : (s.tcbs t).stat_loc <;> simp [sem_post, setTcb, emit, hn]
  rw [task_exitwakeup_loop_no_stat_loc t status n _ h1 h2]
  unfold task_exitwakeup_body stat_delivery
  cases h : (s.tcbs t).stat_loc <;>
    simp [sem_post, setTcb, emit, List.replicate_succ, h]

theorem sem_posts_append (t : Nat) (tr1 tr2 : List Event) :
    sem_posts t (tr1 ++ tr2) = sem_posts t tr1 + sem_posts t tr2 := by
  simp [sem_posts]

theorem sem_posts_stat_delivery (t : Nat) (stat_loc : Option Nat) (status : Int) :
    sem_posts t (stat_delivery stat_loc status) = 0 := by
  cases stat_loc <;> simp [sem_posts, stat_delivery]

theorem sem_posts_replicate (t n : Nat) :
    sem_posts t (List.replicate n (.sem_post t)) = n := by
  simp [sem_posts]

/-! ## task_exitwakeup: the status -/

theorem stat_stores_append (tr1 tr2 : List Event) :
    stat_stores (tr1 ++ tr2) = stat_stores tr1 ++ stat_stores tr2 := by
  simp [stat_stores]

theorem stat_stores_replicate_sem_post (t n : Nat) :
    stat_stores (List.replicate n (.sem_post t)) = [] := by
  induction n with
  | zero => rfl
  | succ n ih =>
    rw [List.replicate_succ]
    simp [stat_stores]

theorem int32_shift_low_byte (status : Int) : int32 (status * 2 ^ 8) % 2 ^ 8 = 0 := by
  unfold int32
  omega

theorem int32_congruent (x : Int) : (int32 x - x) % 2 ^ 32 = 0 := by
  unfold int32
  omega

theorem int32_range (x : Int) : -2 ^ 31 ≤ int32 x ∧ int32 x < 2 ^ 31 := by
  unfold int32
  omega

theorem task_exitwakeup_loop_cases (t : Nat) (s : Sys) :
    0 ≤ (s.tcbs t).exitsem.semcount
      ∨ ∃ n : Nat, (s.tcbs t).exitsem.semcount = -((n : Int) + 1) := by
  by_cases h : 0 ≤ (s.tcbs t).exitsem.semcount
  · exact Or.inl h
  · refine Or.inr ⟨(-(s.tcbs t).exitsem.semcount - 1).toNat, ?_⟩
    omega

theorem task_exitwakeup_loop_semcount_nonneg (t : Nat) (status : Int) (s : Sys) :
    0 ≤ ((task_exitwakeup_loop t status s).tcbs t).exitsem.semcount := by
  rcases task_exitwakeup_loop_cases t s with h | ⟨n, hn⟩
  · rw [task_exitwakeup_loop_of_nonneg t status s h]; exact h
  · rw [task_exitwakeup_loop_blocked t status n s hn]
    simp

/-! ## The order of the steps -/

theorem task_exithook_rest_of_done (cfg : Config) (env : Collab) (t : Nat) (status : Int)
    (s s3 : Sys) (h : task_sigchild cfg env t status s = .done s3) :
    (task_exithook_rest cfg env t status s).returned = true
    ∧ (task_exithook_rest cfg env t status s).state.trace
        = (task_exitwakeup cfg t status s3).trace ++ exithook_tail_events cfg t := by
  unfold task_exithook_rest exithook_tail_events
  rw [h]
  simp only [Run.andThen, Run.state, Run.returned]
  refine ⟨trivial, ?_⟩
  cases h1 : decide (0 < cfg.CONFIG_NFILE_STREAMS) <;>
    cases h2 : (cfg.CONFIG_SCHED_HAVE_PARENT && cfg.CONFIG_SCHED_CHILD_STATUS) <;>
    cases h3 : cfg.CONFIG_DISABLE_SIGNALS <;>
    simp_all [emit, task_removechildren, setTcb]

theorem task_exithook_rest_of_fatal (cfg : Config) (env : Collab) (t : Nat) (status : Int)
    (s s3 : Sys) (h : task_sigchild cfg env t status s = .fatal s3) :
    task_exithook_rest cfg env t status s = .fatal s3 := by
  unfold task_exithook_rest
  rw [h]
  rfl

/-! ## Runs that return -/

theorem task_sigchild_returned_of_no_debug (cfg : Config) (env : Collab) (t : Nat)
    (status : Int) (s : Sys) (hd : cfg.CONFIG_DEBUG = false) :
    (task_sigchild cfg env t status s).returned = true := by
  by_cases hp : cfg.CONFIG_SCHED_HAVE_PARENT = true
  · by_cases ht : ((s.tcbs t).flags &&& cfg.TCB_FLAG_TTYPE_MASK) = cfg.TCB_FLAG_TTYPE_TASK
    · cases hl : s.sched_gettcb (s.tcbs t).parent with
      | none =>
        rw [task_sigchild_no_parent cfg env t status s hp ht hl]; rfl
      | some ptcb =>
        rw [task_sigchild_parent cfg env t status s ptcb hp ht hl]
        have hr := task_sigchild_accounting_returned cfg ptcb status (task_sigchild_locked t s)
        have hf : sigchild_assert_fails cfg ptcb (task_sigchild_locked t s) = false := by
          simp [sigchild_assert_fails, hd]
        rw [hf] at hr
        cases hacc : task_sigchild_accounting cfg ptcb status (task_sigchild_locked t s) with
        | done s2 => rfl
        | fatal s2 => rw [hacc] at hr; simp [Run.returned] at hr
    · rw [task_sigchild_not_task cfg env t status s ht]; rfl
  · rw [task_sigchild_compiled_out cfg env t status s (by simpa using hp)]; rfl

theorem task_exithook_returned (cfg : Config) (env : Collab) (t : Nat) (status : Int)
    (s : Sys) :
    (task_exithook cfg env t status s).returned
      = (task_sigchild cfg env t status
          (task_onexit cfg t status (task_atexit cfg t s))).returned := by
  rw [task_exithook_eq_rest]
  cases hr : task_sigchild cfg env t status (task_onexit cfg t status (task_atexit cfg t s)) with
  | done s3 => exact (task_exithook_rest_of_done cfg env t status _ s3 hr).1
  | fatal s3 => rw [task_exithook_rest_of_fatal cfg env t status _ s3 hr]

/-! ## task_sigchild: assertions -/

theorem task_sigchild_accounting_fatal (cfg : Config) (ptcb : Nat) (status : Int) (s : Sys)
    (hfail : sigchild_assert_fails cfg ptcb s = true) :
    task_sigchild_accounting cfg ptcb status s = .fatal s := by
  unfold sigchild_assert_fails at hfail
  unfold task_sigchild_accounting
  by_cases hcs : cfg.CONFIG_SCHED_CHILD_STATUS = true
  · simp only [hcs, if_true, Bool.and_eq_true, decide_eq_true_eq] at hfail
    obtain ⟨hd, hret, hnone⟩ := hfail
    rw [if_pos hcs, if_pos hret]
    simp [hd, hnone]
  · have hcs2 : cfg.CONFIG_SCHED_CHILD_STATUS = false := by simpa using hcs
    simp [hcs2] at hfail
    obtain ⟨hd, hz⟩ := hfail
    rw [if_neg hcs]
    simp [hd, hz]

theorem task_sigchild_accounting_missing_record (cfg : Config) (ptcb : Nat) (status : Int)
    (s : Sys) (hcs : cfg.CONFIG_SCHED_CHILD_STATUS = true) (hd : cfg.CONFIG_DEBUG = false)
    (hnone : task_findchild (s.tcbs ptcb) s.getpid = none) :
    task_sigchild_accounting cfg ptcb status s = .done s := by
  unfold task_sigchild_accounting
  rw [if_pos hcs]
  by_cases hret : ((s.tcbs ptcb).flags &&& cfg.TCB_FLAG_NOCLDWAIT) = 0
  · rw [if_pos hret]
    simp [hd, hnone]
  · rw [if_neg hret]

theorem task_sigchild_of_accounting_done (cfg : Config) (env : Collab) (t : Nat)
    (status : Int) (s : Sys) (ptcb : Nat) (s2 : Sys)
    (hp : cfg.CONFIG_SCHED_HAVE_PARENT = true)
    (ht : ((s.tcbs t).flags &&& cfg.TCB_FLAG_TTYPE_MASK) = cfg.TCB_FLAG_TTYPE_TASK)
    (hl : s.sched_gettcb (s.tcbs t).parent = some ptcb)
    (hacc : task_sigchild_accounting cfg ptcb status (task_sigchild_locked t s) = .done s2) :
    task_sigchild cfg env t status s = .done (task_sigchild_notify cfg t ptcb status s2)
    ∧ signals (task_sigchild_notify cfg t ptcb status s2).trace
        = signals s.trace ++ [(ptcb, sigchild_info cfg (s.tcbs t) status)]
    ∧ ((task_sigchild_notify cfg t ptcb status s2).tcbs t).parent = cfg.INVALID_PROCESS_ID := by
  have htr := task_sigchild_accounting_trace cfg ptcb status (task_sigchild_locked t s)
  have hpid := task_sigchild_accounting_pid cfg ptcb status (task_sigchild_locked t s) t
  rw [hacc] at htr hpid
  simp only [Run.state] at htr hpid
  have hpid2 : (s2.tcbs t).pid = (s.tcbs t).pid := hpid
  refine ⟨?_, ?_, ?_⟩
  · rw [task_sigchild_parent cfg env t status s ptcb hp ht hl, hacc]
    rfl
  · rw [signals_task_sigchild_notify, htr, signals_task_sigchild_locked]
    simp [sigchild_info, hpid2]
  · simp [task_sigchild_notify_tcbs]

theorem task_sigchild_of_accounting_fatal (cfg : Config) (env : Collab) (t : Nat)
    (status : Int) (s : Sys) (ptcb : Nat) (s2 : Sys)
    (hp : cfg.CONFIG_SCHED_HAVE_PARENT = true)
    (ht : ((s.tcbs t).flags &&& cfg.TCB_FLAG_TTYPE_MASK) = cfg.TCB_FLAG_TTYPE_TASK)
    (hl : s.sched_gettcb (s.tcbs t).parent = some ptcb)
    (hacc : task_sigchild_accounting cfg ptcb status (task_sigchild_locked t s) = .fatal s2) :
    task_sigchild cfg env t status s = .fatal s2 := by
  rw [task_sigchild_parent cfg env t status s ptcb hp ht hl, hacc]
  rfl

theorem task_sigchild_accounting_nocldwait (cfg : Config) (ptcb : Nat) (status : Int)
    (s : Sys) (hcs : cfg.CONFIG_SCHED_CHILD_STATUS = true)
    (hflag : ((s.tcbs ptcb).flags &&& cfg.TCB_FLAG_NOCLDWAIT) ≠ 0) :
    task_sigchild_accounting cfg ptcb status s = .done s := by
  unfold task_sigchild_accounting
  rw [if_pos hcs, if_neg hflag]

theorem task_sigchild_notify_other_fields (cfg : Config) (t ptcb : Nat) (status : Int)
    (s2 : Sys) (a : Nat) :
    ((task_sigchild_notify cfg t ptcb status s2).tcbs a).nchildren = (s2.tcbs a).nchildren
    ∧ ((task_sigchild_notify cfg t ptcb status s2).tcbs a).children = (s2.tcbs a).children := by
  rw [task_sigchild_notify_tcbs]
  by_cases ha : a = t
  · subst ha; simp
  · simp [Function.update_noteq ha]

theorem task_sigchild_signals_at_most_one (cfg : Config) (env : Collab) (t : Nat)
    (status : Int) (s : Sys) :
    ∃ l, signals (task_sigchild cfg env t status s).state.trace = signals s.trace ++ l
      ∧ l.length ≤ 1 := by
  by_cases hp : cfg.CONFIG_SCHED_HAVE_PARENT = true
  · by_cases ht : ((s.tcbs t).flags &&& cfg.TCB_FLAG_TTYPE_MASK) = cfg.TCB_FLAG_TTYPE_TASK
    · cases hl : s.sched_gettcb (s.tcbs t).parent with
      | none =>
        rw [task_sigchild_no_parent cfg env t status s hp ht hl]
        exact ⟨[], by simp [Run.state, signals_sched_unlock, signals_task_sigchild_locked],
          by simp⟩
      | some ptcb =>
        cases hacc : task_sigchild_accounting cfg ptcb status (task_sigchild_locked t s) with
        | done s2 =>
          obtain ⟨h1, h2, _⟩ :=
            task_sigchild_of_accounting_done cfg env t status s ptcb s2 hp ht hl hacc
          rw [h1]
          exact ⟨_, h2, by simp⟩
        | fatal s2 =>
          have htr := task_sigchild_accounting_trace cfg ptcb status (task_sigchild_locked t s)
          rw [hacc] at htr
          rw [task_sigchild_of_accounting_fatal cfg env t status s ptcb s2 hp ht hl hacc]
          refine ⟨[], ?_, by simp⟩
          simp only [Run.state] at htr ⊢
          rw [htr, signals_task_sigchild_locked, List.append_nil]
    · rw [task_sigchild_not_task cfg env t status s ht]
      exact ⟨[], by simp [Run.state], by simp⟩
  · rw [task_sigchild_compiled_out cfg env t status s (by simpa using hp)]
    exact ⟨[], by simp [Run.state], by simp⟩

/-! ## task_exithook: the child status records -/

theorem task_exithook_rest_children (cfg : Config) (env : Collab) (t : Nat) (status : Int)
    (s s3 : Sys) (h : task_sigchild cfg env t status s = .done s3)
    (hp : cfg.CONFIG_SCHED_HAVE_PARENT = true) (hcs : cfg.CONFIG_SCHED_CHILD_STATUS = true) :
    ((task_exithook_rest cfg env t status s).state.tcbs t).children = [] := by
  unfold task_exithook_rest
  rw [h]
  simp only [Run.andThen, Run.state, hp, hcs, Bool.and_self, if_true]
  cases h1 : decide (0 < cfg.CONFIG_NFILE_STREAMS) <;>
    cases h3 : cfg.CONFIG_DISABLE_SIGNALS <;>
    simp_all [emit, task_removechildren, setTcb]

/-! ## task_sigchild: the scheduler lock -/

/-- C1: one run of `task_atexit` on a record whose at-exit array has the
configured number of slots calls exactly the callbacks of the occupied slots,
once per slot, from the highest index to the lowest.  In particular, when the
slots `0..N-1` hold the registrations `fs` in registration order, the calls are
`fs` reversed, and when no slot is occupied nothing is called. -/
theorem task_atexit_calls_in_reverse_order (cfg : Config) (t : Nat) (s : Sys)
    (hlen : (s.tcbs t).atexitfunc.length = atexit_slots cfg) :
    (task_atexit cfg t s).trace
        = s.trace ++ (s.tcbs t).atexitfunc.reverse.reduceOption.map Event.atexit_call
    ∧ (∀ fs : List Nat,
        (s.tcbs t).atexitfunc
            = fs.map some ++ List.replicate (atexit_slots cfg - fs.length) none →
          (task_atexit cfg t s).trace = s.trace ++ fs.reverse.map Event.atexit_call)
    ∧ ((s.tcbs t).atexitfunc = List.replicate (atexit_slots cfg) none →
          (task_atexit cfg t s).trace = s.trace) := by
  have main : (task_atexit cfg t s).trace
      = s.trace ++ (s.tcbs t).atexitfunc.reverse.reduceOption.map Event.atexit_call := by
    rw [task_atexit_eq_loop, task_atexit_loop_eq, ← hlen, List.take_length]
  refine ⟨main, ?_, ?_⟩
  · intro fs hfs
    rw [main, hfs, reduceOption_reverse_registered]
  · intro hnone
    have h := reduceOption_reverse_registered ([] : List Nat) (atexit_slots cfg)
    rw [main, hnone]
    simp only [List.map_nil, List.nil_append, List.reverse_nil] at h
    rw [h, List.map_nil, List.append_nil]

/-- C1, at a concrete input: callbacks 10, 11, 13 in slots 0, 1, 3 of four are
called in the order 13, 11, 10. -/
theorem task_atexit_calls_in_reverse_order_witness :
    (sample_atexit_sys.tcbs 0).atexitfunc.length = atexit_slots sample_config
    ∧ (task_atexit sample_config 0 sample_atexit_sys).trace
        = [Event.atexit_call 13, Event.atexit_call 11, Event.atexit_call 10] :=
  ⟨by decide,
    (task_atexit_calls_in_reverse_order sample_config 0 sample_atexit_sys (by decide)).1.trans
      (by decide)⟩

/-- C2: when the on-exit registrations `(f_0,a_0),...,(f_{n-1},a_{n-1})` are
stored in slots `0..n-1`, one run of `task_onexit` with status `s` makes exactly
the calls `f_{n-1}(s,a_{n-1}), ..., f_0(s,a_0)`, in that order. -/
theorem task_onexit_calls_in_reverse_order (cfg : Config) (t : Nat) (status : Int) (s : Sys)
    (regs : List (Nat × Nat)) (resta : List Nat)
    (hn : regs.length ≤ onexit_slots cfg)
    (hf : (s.tcbs t).onexitfunc
        = regs.map (fun r => some r.1) ++ List.replicate (onexit_slots cfg - regs.length) none)
    (ha : (s.tcbs t).onexitarg = regs.map (fun r => r.2) ++ resta) :
    (task_onexit cfg t status s).trace
      = s.trace ++ regs.reverse.map fun r => Event.onexit_call r.1 status r.2 := by
  rw [task_onexit_eq_loop, task_onexit_loop_eq, hf, ha, List.filterMap_reverse,
    range_filterMap_registered status regs _ resta _ (fun x hx => List.eq_of_mem_replicate hx) hn,
    List.map_reverse]

/-- C2, at a concrete input: A (argument 1) then B (argument 2) registered,
status 7: the calls are B(7,2) then A(7,1). -/
theorem task_onexit_calls_in_reverse_order_witness :
    (task_onexit sample_config_onexit 0 7 sample_onexit_sys).trace
      = [Event.onexit_call 2 7 2, Event.onexit_call 1 7 1] :=
  (task_onexit_calls_in_reverse_order sample_config_onexit 0 7 sample_onexit_sys
    [(1, 1), (2, 2)] [0, 0] (by decide) (by decide) (by decide)).trans (by decide)

/-- C3: after one run of `task_exithook` on a record with the configured slot
arrays, every at-exit slot and every on-exit slot of the record is empty, and a
second run on the resulting state, with any status and any collaborator
outcomes, calls no at-exit and no on-exit callback.  This holds whether or not
the first run was stopped by a failed assertion in the parent notification,
since the callbacks are drained before it. -/
theorem task_exithook_callbacks_idempotent (cfg : Config) (env : Collab) (t : Nat)
    (status : Int) (s : Sys) (hwf : (s.tcbs t).wf cfg) :
    (((task_exithook cfg env t status s).state.tcbs t).atexitfunc
        = List.replicate (atexit_slots cfg) none)
    ∧ (((task_exithook cfg env t status s).state.tcbs t).onexitfunc
        = List.replicate (onexit_slots cfg) none)
    ∧ ∀ (env2 : Collab) (status2 : Int),
        atexit_calls
            (task_exithook cfg env2 t status2 (task_exithook cfg env t status s).state).state.trace
          = atexit_calls (task_exithook cfg env t status s).state.trace
        ∧ onexit_calls
            (task_exithook cfg env2 t status2 (task_exithook cfg env t status s).state).state.trace
          = onexit_calls (task_exithook cfg env t status s).state.trace := by
  obtain ⟨hat, hon, _⟩ := hwf
  -- the state after the two drains of the first run
  have h1 : ((task_onexit cfg t status (task_atexit cfg t s)).tcbs t).atexitfunc
      = List.replicate (atexit_slots cfg) none := by
    rw [task_onexit_atexitfunc, task_atexit_slots_after cfg t s hat]
  have h2 : ((task_onexit cfg t status (task_atexit cfg t s)).tcbs t).onexitfunc
      = List.replicate (onexit_slots cfg) none := by
    apply task_onexit_slots_after
    rw [task_atexit_onexitfunc, hon]
  have hrest := task_exithook_rest_callbacks_untouched cfg env t status
    (task_onexit cfg t status (task_atexit cfg t s))
  rw [← task_exithook_eq_rest] at hrest
  have e1 : ((task_exithook cfg env t status s).state.tcbs t).atexitfunc
      = List.replicate (atexit_slots cfg) none := (hrest.1 t).trans h1
  have e2 : ((task_exithook cfg env t status s).state.tcbs t).onexitfunc
      = List.replicate (onexit_slots cfg) none := (hrest.2.1 t).trans h2
  refine ⟨e1, e2, fun env2 status2 => ?_⟩
  generalize (task_exithook cfg env t status s).state = s1 at e1 e2
  have ha := task_atexit_callbacks_untouched_of_empty cfg t s1 e1
  have ho := task_onexit_callbacks_untouched_of_empty cfg t status2 (task_atexit cfg t s1)
    ((ha.2.1 t).trans e2)
  have hr := task_exithook_rest_callbacks_untouched cfg env2 t status2
    (task_onexit cfg t status2 (task_atexit cfg t s1))
  rw [← task_exithook_eq_rest] at hr
  have hall := callbacks_untouched_trans ha (callbacks_untouched_trans ho hr)
  exact ⟨hall.2.2.1, hall.2.2.2⟩

/-- C3, at a concrete input: a record with three at-exit callbacks registered;
after the hook the four slots are empty and a second run calls nothing more. -/
theorem task_exithook_callbacks_idempotent_witness :
    (sample_atexit_sys.tcbs 0).wf sample_config
    ∧ ((task_exithook sample_config sample_collab 0 0 sample_atexit_sys).state.tcbs 0).atexitfunc
        = [none, none, none, none]
    ∧ atexit_calls
          (task_exithook sample_config sample_collab 0 5
            (task_exithook sample_config sample_collab 0 0 sample_atexit_sys).state).state.trace
        = atexit_calls
          (task_exithook sample_config sample_collab 0 0 sample_atexit_sys).state.trace :=
  ⟨by decide,
    (task_exithook_callbacks_idempotent sample_config sample_collab 0 0 sample_atexit_sys
      (by decide)).1,
    ((task_exithook_callbacks_idempotent sample_config sample_collab 0 0 sample_atexit_sys
      (by decide)).2.2 sample_collab 5).1⟩

/-- C4: in counter mode, for a process-like task whose parent exists with
live-child count `n > 0`, and when the lookup finds no task for
`INVALID_PROCESS_ID`: the first `task_sigchild` returns with the count of the
parent at `n - 1` and exactly one more signal submitted; a second call on the
same task returns with the count still `n - 1` and no further signal. -/
theorem task_sigchild_counter_decrements_once (cfg : Config) (env env2 : Collab) (t : Nat)
    (status status2 : Int) (s : Sys) (ptcb n : Nat)
    (hp : cfg.CONFIG_SCHED_HAVE_PARENT = true)
    (hcs : cfg.CONFIG_SCHED_CHILD_STATUS = false)
    (ht : ((s.tcbs t).flags &&& cfg.TCB_FLAG_TTYPE_MASK) = cfg.TCB_FLAG_TTYPE_TASK)
    (hl : s.sched_gettcb (s.tcbs t).parent = some ptcb)
    (hn : (s.tcbs ptcb).nchildren = n) (hpos : 0 < n) (hrange : n < 2 ^ 16)
    (hsent : s.sched_gettcb cfg.INVALID_PROCESS_ID = none) :
    (task_sigchild cfg env t status s).returned = true
    ∧ ((task_sigchild cfg env t status s).state.tcbs ptcb).nchildren = n - 1
    ∧ signals (task_sigchild cfg env t status s).state.trace
        = signals s.trace ++ [(ptcb, sigchild_info cfg (s.tcbs t) status)]
    ∧ (task_sigchild cfg env2 t status2 (task_sigchild cfg env t status s).state).returned = true
    ∧ ((task_sigchild cfg env2 t status2
          (task_sigchild cfg env t status s).state).state.tcbs ptcb).nchildren = n - 1
    ∧ signals (task_sigchild cfg env2 t status2
          (task_sigchild cfg env t status s).state).state.trace
        = signals (task_sigchild cfg env t status s).state.trace := by
  have hacc := task_sigchild_accounting_counter cfg ptcb status (task_sigchild_locked t s) hcs
    (Or.inr (by
      show (s.tcbs ptcb).nchildren ≠ 0
      omega))
  have hfirst := task_sigchild_parent cfg env t status s ptcb hp ht hl
  rw [hacc] at hfirst
  simp only [Run.andThen] at hfirst
  -- the state the first call returns with
  have hdec : nchildren_dec ((task_sigchild_locked t s).tcbs ptcb).nchildren = n - 1 := by
    show nchildren_dec (s.tcbs ptcb).nchildren = n - 1
    rw [hn]; exact nchildren_dec_of_pos n hpos hrange
  rw [hdec] at hfirst
  have f1 : ((task_sigchild cfg env t status s).state.tcbs ptcb).nchildren = n - 1 := by
    rw [hfirst]
    simp only [Run.state, task_sigchild_notify_tcbs, setTcb]
    by_cases hpt : ptcb = t
    · subst hpt; simp
    · simp [Function.update_noteq hpt]
  have f2 : signals (task_sigchild cfg env t status s).state.trace
      = signals s.trace ++ [(ptcb, sigchild_info cfg (s.tcbs t) status)] := by
    rw [hfirst]
    simp only [Run.state, signals_task_sigchild_notify]
    have hpid : sigchild_info cfg ((setTcb ptcb
        { (task_sigchild_locked t s).tcbs ptcb with nchildren := n - 1 } (task_sigchild_locked t s)).tcbs t) status
        = sigchild_info cfg (s.tcbs t) status := by
      by_cases hpt : t = ptcb
      · subst hpt; simp [sigchild_info, setTcb, task_sigchild_locked, sched_lock, emit]
      · simp [sigchild_info, setTcb, task_sigchild_locked, sched_lock, emit, Function.update_noteq hpt]
    rw [hpid]
    simp [setTcb, signals_task_sigchild_locked]
  have f3 : ((task_sigchild cfg env t status s).state.tcbs t).flags = (s.tcbs t).flags := by
    rw [hfirst]
    simp only [Run.state, task_sigchild_notify_tcbs, setTcb]
    by_cases hpt : t = ptcb
    · subst hpt; simp [task_sigchild_locked, sched_lock, emit]
    · simp [task_sigchild_locked, sched_lock, emit, Function.update_noteq hpt]
  have f4 : ((task_sigchild cfg env t status s).state.tcbs t).parent
      = cfg.INVALID_PROCESS_ID := by
    rw [hfirst]
    simp [Run.state, task_sigchild_notify_tcbs]
  have f5 : (task_sigchild cfg env t status s).state.sched_gettcb = s.sched_gettcb := by
    rw [hfirst]; rfl
  have hsecond := task_sigchild_no_parent cfg env2 t status2
    (task_sigchild cfg env t status s).state hp (by rw [f3]; exact ht)
    (by rw [f4, f5]; exact hsent)
  refine ⟨by rw [hfirst]; rfl, f1, f2, by rw [hsecond]; rfl, ?_, ?_⟩
  · rw [hsecond]; exact f1
  · rw [hsecond]
    simp only [Run.state, signals_sched_unlock, signals_task_sigchild_locked]

/-- C4, at a concrete input: the parent has two live children; after one child
exits the count is 1, and it is still 1 after a second call. -/
theorem task_sigchild_counter_decrements_once_witness :
    ((task_sigchild sample_config sample_collab 1 0 sample_counter_sys).state.tcbs 0).nchildren
        = 1
    ∧ ((task_sigchild sample_config sample_collab 1 0
          (task_sigchild sample_config sample_collab 1 0
            sample_counter_sys).state).state.tcbs 0).nchildren = 1 :=
  have h := task_sigchild_counter_decrements_once sample_config sample_collab sample_collab 1
    0 0 sample_counter_sys 0 2 (by decide) (by decide) (by decide) (by decide) (by decide)
    (by decide) (by decide) (by decide)
  ⟨h.2.1, h.2.2.2.2.1⟩

/-- C5: in child-status mode, when a process-like child exits on its own
context (`getpid()` is its own id) with status `status`, its parent exists,
retains child status and holds a record for the child: `task_sigchild` returns,
the record of the child has the exited flag set and holds `status`, its other
flag bits and its key are unchanged, every other child record of the parent is
unchanged, and the parent link of the child is `INVALID_PROCESS_ID`. -/
theorem task_sigchild_marks_child_record (cfg : Config) (env : Collab) (t : Nat)
    (status : Int) (s : Sys) (ptcb c : Nat)
    (hp : cfg.CONFIG_SCHED_HAVE_PARENT = true)
    (hcs : cfg.CONFIG_SCHED_CHILD_STATUS = true)
    (ht : ((s.tcbs t).flags &&& cfg.TCB_FLAG_TTYPE_MASK) = cfg.TCB_FLAG_TTYPE_TASK)
    (hown : s.getpid = (s.tcbs t).pid)
    (hl : s.sched_gettcb (s.tcbs t).parent = some ptcb)
    (hret : ((s.tcbs ptcb).flags &&& cfg.TCB_FLAG_NOCLDWAIT) = 0)
    (hrec : task_findchild (s.tcbs ptcb) (s.tcbs t).pid = some c) :
    (task_sigchild cfg env t status s).returned = true
    ∧ (∃ r r2,
        (s.tcbs ptcb).children[c]? = some r
        ∧ r.ch_pid = (s.tcbs t).pid
        ∧ ((task_sigchild cfg env t status s).state.tcbs ptcb).children[c]? = some r2
        ∧ r2.ch_flags &&& cfg.CHILD_FLAG_EXITED = cfg.CHILD_FLAG_EXITED
        ∧ (∀ i, cfg.CHILD_FLAG_EXITED.testBit i = false →
            r2.ch_flags.testBit i = r.ch_flags.testBit i)
        ∧ r2.ch_status = status
        ∧ r2.ch_pid = r.ch_pid)
    ∧ (∀ i, i ≠ c →
        ((task_sigchild cfg env t status s).state.tcbs ptcb).children[i]?
          = (s.tcbs ptcb).children[i]?)
    ∧ ((task_sigchild cfg env t status s).state.tcbs ptcb).children.length
        = (s.tcbs ptcb).children.length
    ∧ ((task_sigchild cfg env t status s).state.tcbs t).parent = cfg.INVALID_PROCESS_ID := by
  have hrec2 : task_findchild ((task_sigchild_locked t s).tcbs ptcb) (task_sigchild_locked t s).getpid = some c := by
    show task_findchild (s.tcbs ptcb) s.getpid = some c
    rw [hown]; exact hrec
  have hacc := task_sigchild_accounting_status cfg ptcb status (task_sigchild_locked t s) c hcs hret hrec2
  have hfirst := task_sigchild_parent cfg env t status s ptcb hp ht hl
  rw [hacc] at hfirst
  simp only [Run.andThen] at hfirst
  have hch : ((task_sigchild cfg env t status s).state.tcbs ptcb).children
      = child_update
          (fun r => { r with ch_flags := r.ch_flags ||| cfg.CHILD_FLAG_EXITED,
                             ch_status := status })
          c (s.tcbs ptcb).children := by
    rw [hfirst]
    simp only [Run.state, task_sigchild_notify_tcbs, setTcb]
    by_cases hpt : ptcb = t
    · subst hpt; simp [task_sigchild_locked, sched_lock, emit]
    · simp [task_sigchild_locked, sched_lock, emit, Function.update_noteq hpt]
  obtain ⟨r, hr, hrpid⟩ := findchild_some _ _ _ hrec
  refine ⟨by rw [hfirst]; rfl, ?_, ?_, ?_, ?_⟩
  · refine ⟨r, { r with ch_flags := r.ch_flags ||| cfg.CHILD_FLAG_EXITED, ch_status := status },
      hr, hrpid, ?_, or_and_self_flag _ _, fun i hi => or_testBit_of_clear _ _ i hi, rfl, rfl⟩
    rw [hch, child_update_getElem?_self, hr]
    rfl
  · intro i hi
    rw [hch, child_update_getElem?_of_ne _ _ _ _ hi]
  · rw [hch, child_update_length]
  · rw [hfirst]
    simp [Run.state, task_sigchild_notify_tcbs]

/-- C5, at a concrete input: task 11 exits with status 3 on its own context;
the record of task 11 holds status 3, the record of task 12 is unchanged and
the parent link of task 11 is the sentinel. -/
theorem task_sigchild_marks_child_record_witness :
    (∃ r2, ((task_sigchild sample_config_status sample_collab 1 3
          (sample_status_sys 11)).state.tcbs 0).children[0]? = some r2
        ∧ r2.ch_flags &&& 1 = 1 ∧ r2.ch_status = 3)
    ∧ ((task_sigchild sample_config_status sample_collab 1 3
          (sample_status_sys 11)).state.tcbs 0).children[1]?
        = some { ch_flags := 0, ch_pid := 12, ch_status := 0 }
    ∧ ((task_sigchild sample_config_status sample_collab 1 3
          (sample_status_sys 11)).state.tcbs 1).parent = -1 :=
  have h := task_sigchild_marks_child_record sample_config_status sample_collab 1 3
    (sample_status_sys 11) 0 0 (by decide) (by decide) (by decide) (by decide) (by decide)
    (by decide) (by decide)
  ⟨h.2.1.elim fun _ hr => hr.elim fun r2 hr2 => ⟨r2, hr2.2.2.1, hr2.2.2.2.1, hr2.2.2.2.2.2.1⟩,
    h.2.2.1 1 (by decide), h.2.2.2.2⟩

/-- C6: on the forced-deletion path the record marked is not the one keyed by
`tcb->pid`.  Task 12 is running and deletes its sibling, task 11 (address 1),
with status 0: `task_sigchild` looks the record up by `getpid()`, so it marks
the record of task 12 as exited and leaves the record of task 11 as it was,
while the signal it submits names task 11. -/
theorem task_sigchild_forced_deletion_marks_running_task :
    (sample_status_sys 12).getpid ≠ ((sample_status_sys 12).tcbs 1).pid
    ∧ ((task_sigchild sample_config_status sample_collab 1 0
          (sample_status_sys 12)).state.tcbs 0).children
        = [{ ch_flags := 2, ch_pid := 11, ch_status := 0 },
           { ch_flags := 1, ch_pid := 12, ch_status := 0 }]
    ∧ signals (task_sigchild sample_config_status sample_collab 1 0
          (sample_status_sys 12)).state.trace
        = [(0, { si_signo := 4, si_code := 4, si_value_sival_ptr := none,
                 si_pid := 11, si_status := 0 })] := by
  decide

/-- C7: for a process-like task whose recorded parent id resolves to no task,
`task_sigchild` returns (no assertion fails), no task record is changed, no
signal is submitted, and the scheduler lock is back at the depth it had on
entry; the only events are the lock, the lookup and the release of the lock. -/
theorem task_sigchild_parent_absent (cfg : Config) (env : Collab) (t : Nat) (status : Int)
    (s : Sys)
    (ht : ((s.tcbs t).flags &&& cfg.TCB_FLAG_TTYPE_MASK) = cfg.TCB_FLAG_TTYPE_TASK)
    (hl : s.sched_gettcb (s.tcbs t).parent = none) :
    (task_sigchild cfg env t status s).returned = true
    ∧ (task_sigchild cfg env t status s).state.tcbs = s.tcbs
    ∧ signals (task_sigchild cfg env t status s).state.trace = signals s.trace
    ∧ (task_sigchild cfg env t status s).state.lockcount = s.lockcount
    ∧ (task_sigchild cfg env t status s).state.trace
        = s.trace ++
          (if cfg.CONFIG_SCHED_HAVE_PARENT then
            [.sched_lock, .sched_gettcb (s.tcbs t).parent, .sched_unlock]
          else []) := by
  by_cases hp : cfg.CONFIG_SCHED_HAVE_PARENT = true
  · rw [task_sigchild_no_parent cfg env t status s hp ht hl]
    refine ⟨rfl, rfl, ?_, ?_, ?_⟩
    · simp only [Run.state, signals_sched_unlock, signals_task_sigchild_locked]
    · simp [Run.state, sched_unlock, task_sigchild_locked, sched_lock, emit]
    · simp [Run.state, sched_unlock, task_sigchild_locked, sched_lock, emit, hp]
  · have hp2 : cfg.CONFIG_SCHED_HAVE_PARENT = false := by simpa using hp
    rw [task_sigchild_compiled_out cfg env t status s hp2]
    simp [Run.state, Run.returned, hp2]

/-- C7, at a concrete input: task 11 exits after its parent, task 10, has gone. -/
theorem task_sigchild_parent_absent_witness :
    (task_sigchild sample_config sample_collab 1 0 sample_orphan_sys).returned = true
    ∧ signals (task_sigchild sample_config sample_collab 1 0 sample_orphan_sys).state.trace = []
    ∧ (task_sigchild sample_config sample_collab 1 0 sample_orphan_sys).state.lockcount = 0 :=
  have h := task_sigchild_parent_absent sample_config sample_collab 1 0 sample_orphan_sys
    (by decide) (by decide)
  ⟨h.1, h.2.2.1, h.2.2.2.1⟩

/-- C8: for a task that is not process-like, `task_sigchild` returns the state
it was given: no lock, no lookup, no change to any record, no signal. -/
theorem task_sigchild_noop_for_threads (cfg : Config) (env : Collab) (t : Nat) (status : Int)
    (s : Sys)
    (ht : ((s.tcbs t).flags &&& cfg.TCB_FLAG_TTYPE_MASK) ≠ cfg.TCB_FLAG_TTYPE_TASK) :
    task_sigchild cfg env t status s = .done s
    ∧ (task_sigchild cfg env t status s).state.trace = s.trace
    ∧ (task_sigchild cfg env t status s).state.tcbs = s.tcbs
    ∧ (task_sigchild cfg env t status s).state.lockcount = s.lockcount := by
  rw [task_sigchild_not_task cfg env t status s ht]
  exact ⟨rfl, rfl, rfl, rfl⟩

/-- C8, at a concrete input: a thread-like task whose parent exists and has two
live children; nothing is recorded and the count stays 2. -/
theorem task_sigchild_noop_for_threads_witness :
    (task_sigchild sample_config sample_collab 1 0 sample_pthread_sys).state.trace = []
    ∧ ((task_sigchild sample_config sample_collab 1 0 sample_pthread_sys).state.tcbs 0).nchildren
        = 2 :=
  have h := task_sigchild_noop_for_threads sample_config sample_collab 1 0 sample_pthread_sys
    (by decide)
  ⟨h.2.1, congrArg (fun f => (f 0).nchildren) h.2.2.1⟩

/-- C9: for a process-like task with an existing parent and any status, when
`task_sigchild` returns it has submitted exactly one signal, addressed to the
record of the parent, with signal number `SIGCHLD`, code `CLD_EXITED`, a null
attached value, the pid of the terminating task and the status; it returns
unless one of its assertions fails, and then it has submitted none. -/
theorem task_sigchild_payload (cfg : Config) (env : Collab) (t : Nat) (status : Int)
    (s : Sys) (ptcb : Nat)
    (hp : cfg.CONFIG_SCHED_HAVE_PARENT = true)
    (ht : ((s.tcbs t).flags &&& cfg.TCB_FLAG_TTYPE_MASK) = cfg.TCB_FLAG_TTYPE_TASK)
    (hl : s.sched_gettcb (s.tcbs t).parent = some ptcb) :
    signals (task_sigchild cfg env t status s).state.trace
        = signals s.trace ++
          (if (task_sigchild cfg env t status s).returned then
            [(ptcb, { si_signo := cfg.SIGCHLD
                      si_code := cfg.CLD_EXITED
                      si_value_sival_ptr := none
                      si_pid := (s.tcbs t).pid
                      si_status := status })]
          else [])
    ∧ (task_sigchild cfg env t status s).returned = !sigchild_assert_fails cfg ptcb s := by
  have hfirst := task_sigchild_parent cfg env t status s ptcb hp ht hl
  have htr := task_sigchild_accounting_trace cfg ptcb status (task_sigchild_locked t s)
  have hpid := task_sigchild_accounting_pid cfg ptcb status (task_sigchild_locked t s) t
  have hret := task_sigchild_accounting_returned cfg ptcb status (task_sigchild_locked t s)
  have hfail : sigchild_assert_fails cfg ptcb (task_sigchild_locked t s) = sigchild_assert_fails cfg ptcb s :=
    rfl
  rw [hfail] at hret
  rw [hfirst]
  cases hacc : task_sigchild_accounting cfg ptcb status (task_sigchild_locked t s) with
  | done s2 =>
    rw [hacc] at htr hpid hret
    simp only [Run.state] at htr hpid
    have hpid2 : (s2.tcbs t).pid = (s.tcbs t).pid := hpid
    refine ⟨?_, ?_⟩
    · simp only [Run.andThen, Run.state, Run.returned, signals_task_sigchild_notify, htr,
        signals_task_sigchild_locked, if_true, sigchild_info, hpid2]
    · rw [← hret]; rfl
  | fatal s2 =>
    rw [hacc] at htr hret
    simp only [Run.state] at htr
    refine ⟨?_, ?_⟩
    · simp [Run.andThen, Run.state, Run.returned, htr, signals_task_sigchild_locked]
    · rw [← hret]; rfl

/-- C9, at a concrete input: task 11 exits with status 0; the one signal goes
to the record of its parent and names task 11. -/
theorem task_sigchild_payload_witness :
    (task_sigchild sample_config sample_collab 1 0 sample_counter_sys).returned = true
    ∧ signals (task_sigchild sample_config sample_collab 1 0 sample_counter_sys).state.trace
      = [(0, { si_signo := 4, si_code := 4, si_value_sival_ptr := none,
               si_pid := 11, si_status := 0 })] :=
  have h := task_sigchild_payload sample_config sample_collab 1 0 sample_counter_sys 0
    (by decide) (by decide) (by decide)
  ⟨h.2.trans (by decide), h.1.trans (by decide)⟩

/-- C10: where `task_exitwakeup` is compiled in and `n` threads are blocked on
the exit semaphore of the record (count `-n`), `task_exitwakeup` (a total
function: the loop ends) leaves the count at 0 and makes exactly `n` calls of
`sem_post`; its events are the delivery of the status, if one is pending and
`n > 0`, followed by the `n` posts. -/
theorem task_exitwakeup_releases_all (cfg : Config) (t : Nat) (status : Int) (s : Sys)
    (n : Nat)
    (hw : cfg.CONFIG_SCHED_WAITPID = true) (hp : cfg.CONFIG_SCHED_HAVE_PARENT = false)
    (hn : (s.tcbs t).exitsem.semcount = -(n : Int)) :
    ((task_exitwakeup cfg t status s).tcbs t).exitsem.semcount = 0
    ∧ sem_posts t (task_exitwakeup cfg t status s).trace = sem_posts t s.trace + n
    ∧ (task_exitwakeup cfg t status s).trace
        = s.trace ++ (if n = 0 then [] else stat_delivery (s.tcbs t).stat_loc status)
          ++ List.replicate n (.sem_post t) := by
  have hcfg : task_exitwakeup cfg t status s = task_exitwakeup_loop t status s := by
    simp [task_exitwakeup, hw, hp]
  rw [hcfg]
  cases n with
  | zero =>
    rw [task_exitwakeup_loop_of_nonneg t status s (by simp [hn])]
    simp [hn]
  | succ m =>
    rw [task_exitwakeup_loop_blocked t status m s (by rw [hn]; push_cast; ring)]
    refine ⟨by simp, ?_, by simp⟩
    simp only [sem_posts_append, sem_posts_stat_delivery, sem_posts_replicate]
    omega

/-- C10, at a concrete input: two threads blocked, status 0, a status location
pending at address 7: the status is stored once, both threads are released and
the count ends at 0. -/
theorem task_exitwakeup_releases_all_witness :
    ((task_exitwakeup sample_config_waitpid 0 0 sample_waiters_sys).tcbs 0).exitsem.semcount = 0
    ∧ (task_exitwakeup sample_config_waitpid 0 0 sample_waiters_sys).trace
        = [.stat_store 7 0, .sem_post 0, .sem_post 0] :=
  have h := task_exitwakeup_releases_all sample_config_waitpid 0 0 sample_waiters_sys 2
    (by decide) (by decide) (by decide)
  ⟨h.1, h.2.2.trans (by decide)⟩

/-- C11: where `task_exitwakeup` is compiled in, with `n + 1` threads blocked
and a status location pending at `loc`, the events of `task_exitwakeup` are one
store to `loc` followed by the `n + 1` posts, so the store is the only one and
comes before the first release; the value stored is `status << 8` in a 32-bit
`int` (congruent to `status * 256` modulo `2 ^ 32`, low byte zero), and
`stat_loc` is NULL afterwards.  With no location pending nothing is stored. -/
theorem task_exitwakeup_delivers_status_once (cfg : Config) (t : Nat) (status : Int)
    (s : Sys)
    (hw : cfg.CONFIG_SCHED_WAITPID = true) (hp : cfg.CONFIG_SCHED_HAVE_PARENT = false) :
    (∀ n loc : Nat,
        (s.tcbs t).exitsem.semcount = -((n : Int) + 1) → (s.tcbs t).stat_loc = some loc →
          (task_exitwakeup cfg t status s).trace
              = s.trace ++ (.stat_store loc (int32 (status * 2 ^ 8))
                  :: List.replicate (n + 1) (.sem_post t))
          ∧ stat_stores (task_exitwakeup cfg t status s).trace
              = stat_stores s.trace ++ [(loc, int32 (status * 2 ^ 8))]
          ∧ (task_exitwakeup cfg t status s).intmem
              = Function.update s.intmem loc (int32 (status * 2 ^ 8))
          ∧ ((task_exitwakeup cfg t status s).tcbs t).stat_loc = none)
    ∧ int32 (status * 2 ^ 8) % 2 ^ 8 = 0
    ∧ (int32 (status * 2 ^ 8) - status * 256) % 2 ^ 32 = 0
    ∧ (-2 ^ 31 ≤ int32 (status * 2 ^ 8) ∧ int32 (status * 2 ^ 8) < 2 ^ 31)
    ∧ ((s.tcbs t).stat_loc = none →
          stat_stores (task_exitwakeup cfg t status s).trace = stat_stores s.trace
          ∧ (task_exitwakeup cfg t status s).intmem = s.intmem) := by
  have hcfg : task_exitwakeup cfg t status s = task_exitwakeup_loop t status s := by
    simp [task_exitwakeup, hw, hp]
  rw [hcfg]
  refine ⟨?_, int32_shift_low_byte status, ?_, int32_range _, ?_⟩
  · intro n loc hn hloc
    rw [task_exitwakeup_loop_blocked t status n s hn]
    have hd : stat_delivery (s.tcbs t).stat_loc status
        = [.stat_store loc (int32 (status * 2 ^ 8))] := by
      rw [hloc]; rfl
    refine ⟨by simp [hd], ?_, by simp [hloc], by simp⟩
    simp only [hd]
    rw [List.append_assoc, stat_stores_append, stat_stores_append,
      stat_stores_replicate_sem_post]
    simp [stat_stores]
  · have h := int32_congruent (status * 2 ^ 8)
    norm_num at h ⊢
    exact h
  · intro hloc
    rcases task_exitwakeup_loop_cases t s with h | ⟨n, hn⟩
    · rw [task_exitwakeup_loop_of_nonneg t status s h]
      exact ⟨rfl, rfl⟩
    · rw [task_exitwakeup_loop_blocked t status n s hn]
      have hd : stat_delivery (s.tcbs t).stat_loc status = [] := by
        rw [hloc]; rfl
      refine ⟨?_, by simp [hloc]⟩
      simp only [hd]
      rw [List.append_nil, stat_stores_append, stat_stores_replicate_sem_post,
        List.append_nil]

/-- C11, at a concrete input: two threads blocked, a location pending at
address 7, status 3: the value 768 is stored once, before the two posts, and
`stat_loc` is NULL afterwards. -/
theorem task_exitwakeup_delivers_status_once_witness :
    (task_exitwakeup sample_config_waitpid 0 3 sample_waiters_sys).trace
        = [.stat_store 7 768, .sem_post 0, .sem_post 0]
    ∧ (task_exitwakeup sample_config_waitpid 0 3 sample_waiters_sys).intmem 7 = 768
    ∧ ((task_exitwakeup sample_config_waitpid 0 3 sample_waiters_sys).tcbs 0).stat_loc = none :=
  have h := (task_exitwakeup_delivers_status_once sample_config_waitpid 0 3 sample_waiters_sys
    (by decide) (by decide)).1 1 7 (by decide) (by decide)
  ⟨h.1.trans (by decide), (congrFun h.2.2.1 7).trans (by decide), h.2.2.2⟩

/-- C19: on a record with no blocked waiter (count of the exit semaphore not
negative) `task_exitwakeup` returns the state it was given: no post, no store,
`stat_loc` and the location it points to untouched.  Hence a second run right
after a first one, with any status, changes nothing. -/
theorem task_exitwakeup_self_guarding (cfg : Config) (t : Nat) (status status2 : Int)
    (s : Sys) :
    (0 ≤ (s.tcbs t).exitsem.semcount → task_exitwakeup cfg t status s = s)
    ∧ task_exitwakeup cfg t status2 (task_exitwakeup cfg t status s)
        = task_exitwakeup cfg t status s := by
  have hguard : ∀ (st : Int) (s0 : Sys), 0 ≤ (s0.tcbs t).exitsem.semcount →
      task_exitwakeup cfg t st s0 = s0 := by
    intro st s0 h
    unfold task_exitwakeup
    split
    · exact task_exitwakeup_loop_of_nonneg t st s0 h
    · rfl
  refine ⟨hguard status s, ?_⟩
  by_cases hc : (cfg.CONFIG_SCHED_WAITPID && !cfg.CONFIG_SCHED_HAVE_PARENT) = true
  · have h1 : task_exitwakeup cfg t status s = task_exitwakeup_loop t status s := by
      unfold task_exitwakeup; rw [if_pos hc]
    rw [h1]
    exact hguard status2 _ (task_exitwakeup_loop_semcount_nonneg t status s)
  · have h1 : ∀ (st : Int) (s0 : Sys), task_exitwakeup cfg t st s0 = s0 := by
      intro st s0
      unfold task_exitwakeup; rw [if_neg hc]
    rw [h1, h1]

/-- C19, at a concrete input: no thread is blocked on the exit semaphore while
a status location is pending at address 7: nothing happens, the location stays
pending and nothing is stored to it. -/
theorem task_exitwakeup_self_guarding_witness :
    (task_exitwakeup sample_config_waitpid 0 3 sample_nowaiter_sys).trace = []
    ∧ ((task_exitwakeup sample_config_waitpid 0 3 sample_nowaiter_sys).tcbs 0).stat_loc = some 7
    ∧ (task_exitwakeup sample_config_waitpid 0 3 sample_nowaiter_sys).intmem 7 = 0 :=
  have h := (task_exitwakeup_self_guarding sample_config_waitpid 0 3 3 sample_nowaiter_sys).1
    (by decide)
  ⟨congrArg Sys.trace h, congrArg (fun x => (x.tcbs 0).stat_loc) h,
    congrArg (fun x => x.intmem 7) h⟩

/-- C20: `task_atexit` changes nothing but the at-exit slots of the record it is
given and the trace, and `task_onexit` nothing but the on-exit function slots
of that record and the trace: the on-exit arguments, the task id, the parent
link, the flags, the exit semaphore and every other field of the record, all
other records, the pid table, the lock depth and the memory are as before.  At
an empty slot the loop body does nothing at all, so an empty slot is not
written. -/
theorem callback_draining_frame (cfg : Config) (t : Nat) (status : Int) (s : Sys) :
    ((∀ a, (task_atexit cfg t s).tcbs a
          = { s.tcbs a with atexitfunc := ((task_atexit cfg t s).tcbs a).atexitfunc })
      ∧ (∀ a, a ≠ t → (task_atexit cfg t s).tcbs a = s.tcbs a)
      ∧ (task_atexit cfg t s).sched_gettcb = s.sched_gettcb
      ∧ (task_atexit cfg t s).getpid = s.getpid
      ∧ (task_atexit cfg t s).lockcount = s.lockcount
      ∧ (task_atexit cfg t s).intmem = s.intmem
      ∧ (∀ i, (s.tcbs t).atexitfunc.getD i none = none → task_atexit_body t i s = s))
    ∧ ((∀ a, (task_onexit cfg t status s).tcbs a
          = { s.tcbs a with onexitfunc := ((task_onexit cfg t status s).tcbs a).onexitfunc })
      ∧ (∀ a, a ≠ t → (task_onexit cfg t status s).tcbs a = s.tcbs a)
      ∧ (task_onexit cfg t status s).sched_gettcb = s.sched_gettcb
      ∧ (task_onexit cfg t status s).getpid = s.getpid
      ∧ (task_onexit cfg t status s).lockcount = s.lockcount
      ∧ (task_onexit cfg t status s).intmem = s.intmem
      ∧ (∀ i, (s.tcbs t).onexitfunc.getD i none = none →
          task_onexit_body t status i s = s)) := by
  refine ⟨⟨fun a => ?_, fun a ha => ?_, ?_, ?_, ?_, ?_, fun i hi => ?_⟩,
    ⟨fun a => ?_, fun a ha => ?_, ?_, ?_, ?_, ?_, fun i hi => ?_⟩⟩
  · rw [task_atexit_eq_loop, task_atexit_loop_eq]
    by_cases ha : a = t
    · subst ha; simp
    · simp [Function.update_noteq ha]
  · rw [task_atexit_eq_loop, task_atexit_loop_eq]
    simp [Function.update_noteq ha]
  · rw [task_atexit_eq_loop, task_atexit_loop_eq]
  · rw [task_atexit_eq_loop, task_atexit_loop_eq]
  · rw [task_atexit_eq_loop, task_atexit_loop_eq]
  · rw [task_atexit_eq_loop, task_atexit_loop_eq]
  · unfold task_atexit_body
    rw [hi]
  · rw [task_onexit_eq_loop, task_onexit_loop_eq]
    by_cases ha : a = t
    · subst ha; simp
    · simp [Function.update_noteq ha]
  · rw [task_onexit_eq_loop, task_onexit_loop_eq]
    simp [Function.update_noteq ha]
  · rw [task_onexit_eq_loop, task_onexit_loop_eq]
  · rw [task_onexit_eq_loop, task_onexit_loop_eq]
  · rw [task_onexit_eq_loop, task_onexit_loop_eq]
  · rw [task_onexit_eq_loop, task_onexit_loop_eq]
  · unfold task_onexit_body
    rw [hi]

/-- C20, at a concrete input: after the drain of the sample on-exit record the
stored arguments, the task id, the parent link, the flags and the exit
semaphore are as before, and the body at the empty slot 2 does nothing. -/
theorem callback_draining_frame_witness :
    ((task_onexit sample_config_onexit 0 7 sample_onexit_sys).tcbs 0).onexitarg = [1, 2, 0, 0]
    ∧ ((task_onexit sample_config_onexit 0 7 sample_onexit_sys).tcbs 0).parent = 0
    ∧ ((task_onexit sample_config_onexit 0 7 sample_onexit_sys).tcbs 0).exitsem
        = { semcount := 0 }
    ∧ (task_onexit_body 0 7 2 sample_onexit_sys).trace = sample_onexit_sys.trace :=
  have h := (callback_draining_frame sample_config_onexit 0 7 sample_onexit_sys).2
  ⟨congrArg TCB.onexitarg (h.1 0), congrArg TCB.parent (h.1 0), congrArg TCB.exitsem (h.1 0),
    congrArg Sys.trace (h.2.2.2.2.2.2 2 (by decide))⟩

/-- C13: the run of `task_exithook` does not depend on what `sig_received`,
`lib_flushall` and `sched_releasefiles` return: with any two sets of outcomes
the run ends the same way, in the same state, with the same events.  A run
that returns ends with the last four steps, and without `CONFIG_DEBUG` every
run returns. -/
theorem task_exithook_ignores_collaborator_outcomes (cfg : Config) (env env2 : Collab)
    (t : Nat) (status : Int) (s : Sys) :
    task_exithook cfg env t status s = task_exithook cfg env2 t status s
    ∧ ((task_exithook cfg env t status s).returned = true →
        ∃ pre, (task_exithook cfg env t status s).state.trace
          = pre ++ exithook_tail_events cfg t)
    ∧ (cfg.CONFIG_DEBUG = false → (task_exithook cfg env t status s).returned = true) := by
  refine ⟨rfl, ?_, ?_⟩
  · intro hret
    rw [task_exithook_returned] at hret
    rw [task_exithook_eq_rest]
    cases hr : task_sigchild cfg env t status
        (task_onexit cfg t status (task_atexit cfg t s)) with
    | done s3 =>
      exact ⟨_, (task_exithook_rest_of_done cfg env t status _ s3 hr).2⟩
    | fatal s3 =>
      rw [hr] at hret
      simp [Run.returned] at hret
  · intro hd
    rw [task_exithook_returned]
    exact task_sigchild_returned_of_no_debug cfg env t status _ hd

/-- C13, at a concrete input: the run of the hook for task 11 with all three
collaborators reporting failure is the run with all three reporting success,
and it returns. -/
theorem task_exithook_ignores_collaborator_outcomes_witness :
    sample_collab_failing.sig_received 0
        { si_signo := 4, si_code := 4, si_value_sival_ptr := none, si_pid := 11,
          si_status := 0 } = -1
    ∧ task_exithook sample_config sample_collab_failing 1 0 sample_hook_sys
        = task_exithook sample_config sample_collab 1 0 sample_hook_sys
    ∧ (task_exithook sample_config sample_collab_failing 1 0 sample_hook_sys).returned = true :=
  ⟨rfl,
    (task_exithook_ignores_collaborator_outcomes sample_config sample_collab_failing
      sample_collab 1 0 sample_hook_sys).1,
    by decide⟩

/-- C14, counterexample: child-status mode without `CONFIG_DEBUG`.  The parent
of task 11 retains child status and holds no record for it.  `task_sigchild`
does not abort: it returns, having overwritten the parent link of task 11
(10 before, `INVALID_PROCESS_ID` after) and submitted the signal. -/
theorem task_sigchild_missing_record_continues :
    ((sample_norecord_sys.tcbs 0).flags &&& sample_config_status_nodebug.TCB_FLAG_NOCLDWAIT = 0
      ∧ task_findchild (sample_norecord_sys.tcbs 0) (sample_norecord_sys.tcbs 1).pid = none)
    ∧ (task_sigchild sample_config_status_nodebug sample_collab 1 3
          sample_norecord_sys).returned = true
    ∧ (sample_norecord_sys.tcbs 1).parent = 10
    ∧ ((task_sigchild sample_config_status_nodebug sample_collab 1 3
          sample_norecord_sys).state.tcbs 1).parent = -1
    ∧ signals (task_sigchild sample_config_status_nodebug sample_collab 1 3
          sample_norecord_sys).state.trace
        = [(0, { si_signo := 4, si_code := 4, si_value_sival_ptr := none,
                 si_pid := 11, si_status := 3 })] := by
  decide

/-- C14, amended: for a process-like task whose parent exists, when the task
exits on its own context (`getpid()` is its own id) and the parent retains
child status but holds no record for it, or (counter mode) the counter of the
parent is zero: with `CONFIG_DEBUG` the run stops at the assertion, with every
task record as on entry, the parent link included, and no signal submitted;
without `CONFIG_DEBUG` the run returns, the parent link is
`INVALID_PROCESS_ID` and the signal has been submitted, and in child-status
mode the records of the parent are as on entry. -/
theorem task_sigchild_consistency_violation (cfg : Config) (env : Collab) (t : Nat)
    (status : Int) (s : Sys) (ptcb : Nat)
    (hp : cfg.CONFIG_SCHED_HAVE_PARENT = true)
    (ht : ((s.tcbs t).flags &&& cfg.TCB_FLAG_TTYPE_MASK) = cfg.TCB_FLAG_TTYPE_TASK)
    (hl : s.sched_gettcb (s.tcbs t).parent = some ptcb)
    (hviol : (cfg.CONFIG_SCHED_CHILD_STATUS = true
          ∧ s.getpid = (s.tcbs t).pid
          ∧ ((s.tcbs ptcb).flags &&& cfg.TCB_FLAG_NOCLDWAIT) = 0
          ∧ task_findchild (s.tcbs ptcb) (s.tcbs t).pid = none)
        ∨ (cfg.CONFIG_SCHED_CHILD_STATUS = false ∧ (s.tcbs ptcb).nchildren = 0)) :
    (cfg.CONFIG_DEBUG = true →
        (task_sigchild cfg env t status s).returned = false
        ∧ (task_sigchild cfg env t status s).state.tcbs = s.tcbs
        ∧ signals (task_sigchild cfg env t status s).state.trace = signals s.trace)
    ∧ (cfg.CONFIG_DEBUG = false →
        (task_sigchild cfg env t status s).returned = true
        ∧ ((task_sigchild cfg env t status s).state.tcbs t).parent = cfg.INVALID_PROCESS_ID
        ∧ signals (task_sigchild cfg env t status s).state.trace
            = signals s.trace ++ [(ptcb, sigchild_info cfg (s.tcbs t) status)]
        ∧ (cfg.CONFIG_SCHED_CHILD_STATUS = true →
            ((task_sigchild cfg env t status s).state.tcbs ptcb).children
              = (s.tcbs ptcb).children)) := by
  refine ⟨fun hd => ?_, fun hd => ?_⟩
  · have hfail : sigchild_assert_fails cfg ptcb (task_sigchild_locked t s) = true := by
      show sigchild_assert_fails cfg ptcb s = true
      unfold sigchild_assert_fails
      rcases hviol with ⟨hcs, hown, hret, hnone⟩ | ⟨hcs, hz⟩
      · rw [← hown] at hnone
        simp [hd, hcs, hret, hnone]
      · simp [hd, hcs, hz]
    have hacc := task_sigchild_accounting_fatal cfg ptcb status _ hfail
    rw [task_sigchild_of_accounting_fatal cfg env t status s ptcb _ hp ht hl hacc]
    exact ⟨rfl, rfl, signals_task_sigchild_locked t s⟩
  · have hr := task_sigchild_accounting_returned cfg ptcb status (task_sigchild_locked t s)
    have hf : sigchild_assert_fails cfg ptcb (task_sigchild_locked t s) = false := by
      simp [sigchild_assert_fails, hd]
    rw [hf] at hr
    cases hacc : task_sigchild_accounting cfg ptcb status (task_sigchild_locked t s) with
    | fatal s2 => rw [hacc] at hr; simp [Run.returned] at hr
    | done s2 =>
      obtain ⟨h1, h2, h3⟩ :=
        task_sigchild_of_accounting_done cfg env t status s ptcb s2 hp ht hl hacc
      rw [h1]
      refine ⟨rfl, h3, h2, fun hcs => ?_⟩
      rcases hviol with ⟨_, hown, _, hnone⟩ | ⟨hcs2, _⟩
      · rw [← hown] at hnone
        have hm := task_sigchild_accounting_missing_record cfg ptcb status
          (task_sigchild_locked t s) hcs hd hnone
        rw [hm] at hacc
        cases hacc
        simp only [Run.state, task_sigchild_notify_tcbs]
        by_cases hpt : ptcb = t
        · subst hpt; simp [task_sigchild_locked, sched_lock, emit]
        · simp [task_sigchild_locked, sched_lock, emit, Function.update_noteq hpt]
      · rw [hcs2] at hcs
        exact absurd hcs (by simp)

/-- C14, amended, at a concrete input: task 11 exits on its own context and its
parent holds no record for it; with `CONFIG_DEBUG` the run stops at the
assertion, the parent link of task 11 is still 10 and no signal has been
submitted. -/
theorem task_sigchild_consistency_violation_witness :
    (task_sigchild sample_config_status sample_collab 1 3 sample_norecord_sys).returned = false
    ∧ ((task_sigchild sample_config_status sample_collab 1 3
          sample_norecord_sys).state.tcbs 1).parent = 10
    ∧ signals (task_sigchild sample_config_status sample_collab 1 3
          sample_norecord_sys).state.trace = [] :=
  have h := (task_sigchild_consistency_violation sample_config_status sample_collab 1 3
    sample_norecord_sys 0 (by decide) (by decide) (by decide)
    (Or.inl ⟨by decide, by decide, by decide, by decide⟩)).1 (by decide)
  ⟨h.1, congrArg (fun f => (f 1).parent) h.2.1, h.2.2⟩

/-- C15, counterexample: child-status mode.  The parent of task 11 has
`TCB_FLAG_NOCLDWAIT` set and a counter value of 2; `task_sigchild` for task 11
returns and the counter is still 2: nothing is decremented. -/
theorem task_sigchild_nocldwait_no_decrement :
    (sample_nocldwait_sys.tcbs 0).flags &&& sample_config_status.TCB_FLAG_NOCLDWAIT ≠ 0
    ∧ (sample_nocldwait_sys.tcbs 0).nchildren = 2
    ∧ (task_sigchild sample_config_status sample_collab 1 0 sample_nocldwait_sys).returned = true
    ∧ ((task_sigchild sample_config_status sample_collab 1 0
          sample_nocldwait_sys).state.tcbs 0).nchildren = 2 := by
  decide

/-- C15, amended: for a process-like task whose parent exists.  In counter mode
(`CONFIG_SCHED_CHILD_STATUS` not defined) `task_sigchild` returns with the
counter of the parent, `n > 0` on entry, at `n - 1`, whatever the flag
`TCB_FLAG_NOCLDWAIT` of the parent.  In child-status mode, when the parent has
`TCB_FLAG_NOCLDWAIT` set, `task_sigchild` returns with the counter and the
child records of the parent as on entry; the parent link is overwritten and the
signal submitted all the same. -/
theorem task_sigchild_opt_out_accounting (cfg : Config) (env : Collab) (t : Nat)
    (status : Int) (s : Sys) (ptcb : Nat)
    (hp : cfg.CONFIG_SCHED_HAVE_PARENT = true)
    (ht : ((s.tcbs t).flags &&& cfg.TCB_FLAG_TTYPE_MASK) = cfg.TCB_FLAG_TTYPE_TASK)
    (hl : s.sched_gettcb (s.tcbs t).parent = some ptcb) :
    (cfg.CONFIG_SCHED_CHILD_STATUS = false →
        0 < (s.tcbs ptcb).nchildren → (s.tcbs ptcb).nchildren < 2 ^ 16 →
          (task_sigchild cfg env t status s).returned = true
          ∧ ((task_sigchild cfg env t status s).state.tcbs ptcb).nchildren
              = (s.tcbs ptcb).nchildren - 1)
    ∧ (cfg.CONFIG_SCHED_CHILD_STATUS = true →
        ((s.tcbs ptcb).flags &&& cfg.TCB_FLAG_NOCLDWAIT) ≠ 0 →
          (task_sigchild cfg env t status s).returned = true
          ∧ ((task_sigchild cfg env t status s).state.tcbs ptcb).nchildren
              = (s.tcbs ptcb).nchildren
          ∧ ((task_sigchild cfg env t status s).state.tcbs ptcb).children
              = (s.tcbs ptcb).children
          ∧ ((task_sigchild cfg env t status s).state.tcbs t).parent = cfg.INVALID_PROCESS_ID
          ∧ signals (task_sigchild cfg env t status s).state.trace
              = signals s.trace ++ [(ptcb, sigchild_info cfg (s.tcbs t) status)]) := by
  refine ⟨fun hcs hpos hrange => ?_, fun hcs hflag => ?_⟩
  · have hacc := task_sigchild_accounting_counter cfg ptcb status (task_sigchild_locked t s)
      hcs (Or.inr (by
        show (s.tcbs ptcb).nchildren ≠ 0
        omega))
    obtain ⟨h1, _, _⟩ := task_sigchild_of_accounting_done cfg env t status s ptcb _ hp ht hl hacc
    rw [h1]
    refine ⟨rfl, ?_⟩
    simp only [Run.state]
    rw [(task_sigchild_notify_other_fields cfg t ptcb status _ ptcb).1]
    have hdec : nchildren_dec ((task_sigchild_locked t s).tcbs ptcb).nchildren
        = (s.tcbs ptcb).nchildren - 1 :=
      nchildren_dec_of_pos _ hpos hrange
    simp [setTcb, hdec]
  · have hacc := task_sigchild_accounting_nocldwait cfg ptcb status (task_sigchild_locked t s)
      hcs hflag
    obtain ⟨h1, h2, h3⟩ :=
      task_sigchild_of_accounting_done cfg env t status s ptcb _ hp ht hl hacc
    rw [h1]
    exact ⟨rfl, (task_sigchild_notify_other_fields cfg t ptcb status _ ptcb).1,
      (task_sigchild_notify_other_fields cfg t ptcb status _ ptcb).2, h3, h2⟩

/-- C15, amended, at concrete inputs: in counter mode the counter of the parent
of task 11 goes from 2 to 1; in child-status mode with `TCB_FLAG_NOCLDWAIT` set
the counter stays 2 and the signal is submitted. -/
theorem task_sigchild_opt_out_accounting_witness :
    ((task_sigchild sample_config sample_collab 1 0 sample_counter_sys).state.tcbs 0).nchildren
        = 1
    ∧ ((task_sigchild sample_config_status sample_collab 1 0
          sample_nocldwait_sys).state.tcbs 0).nchildren = 2
    ∧ signals (task_sigchild sample_config_status sample_collab 1 0
          sample_nocldwait_sys).state.trace
        = [(0, { si_signo := 4, si_code := 4, si_value_sival_ptr := none,
                 si_pid := 11, si_status := 0 })] :=
  have h1 := (task_sigchild_opt_out_accounting sample_config sample_collab 1 0
    sample_counter_sys 0 (by decide) (by decide) (by decide)).1 (by decide) (by decide)
    (by decide)
  have h2 := (task_sigchild_opt_out_accounting sample_config_status sample_collab 1 0
    sample_nocldwait_sys 0 (by decide) (by decide) (by decide)).2 (by decide) (by decide)
  ⟨h1.2, h2.2.1, h2.2.2.2.2.trans (by decide)⟩

/-- C16, counterexample: task 11 exits and `sig_received` reports failure
(it returns -1).  The signal has been submitted once, and what `task_sigchild`
hands back to its caller is exactly what it hands back when `sig_received`
reports success: the failure is not reported upward. -/
theorem task_sigchild_failure_not_reported :
    sample_collab_failing.sig_received 0
        { si_signo := 4, si_code := 4, si_value_sival_ptr := none, si_pid := 11,
          si_status := 0 } = -1
    ∧ sample_collab.sig_received 0
        { si_signo := 4, si_code := 4, si_value_sival_ptr := none, si_pid := 11,
          si_status := 0 } = 0
    ∧ signals (task_sigchild sample_config sample_collab_failing 1 0
          sample_counter_sys).state.trace
        = [(0, { si_signo := 4, si_code := 4, si_value_sival_ptr := none,
                 si_pid := 11, si_status := 0 })]
    ∧ task_sigchild sample_config sample_collab_failing 1 0 sample_counter_sys
        = task_sigchild sample_config sample_collab 1 0 sample_counter_sys :=
  ⟨rfl, rfl, by decide, rfl⟩

/-- C16, amended: the result of `sig_received` is discarded: whatever it
returns, `task_sigchild` ends the same way in the same state, so a failed
submission is not reported to the caller.  The submission is not retried: one
run submits at most one signal, and exactly one when the parent is found and
the run returns. -/
theorem task_sigchild_discards_submission_result (cfg : Config) (env env2 : Collab)
    (t : Nat) (status : Int) (s : Sys) :
    task_sigchild cfg env t status s = task_sigchild cfg env2 t status s
    ∧ (∃ l, signals (task_sigchild cfg env t status s).state.trace = signals s.trace ++ l
        ∧ l.length ≤ 1)
    ∧ (∀ ptcb, cfg.CONFIG_SCHED_HAVE_PARENT = true →
        ((s.tcbs t).flags &&& cfg.TCB_FLAG_TTYPE_MASK) = cfg.TCB_FLAG_TTYPE_TASK →
        s.sched_gettcb (s.tcbs t).parent = some ptcb →
        (task_sigchild cfg env t status s).returned = true →
          signals (task_sigchild cfg env t status s).state.trace
            = signals s.trace ++ [(ptcb, sigchild_info cfg (s.tcbs t) status)]) := by
  refine ⟨rfl, task_sigchild_signals_at_most_one cfg env t status s, ?_⟩
  intro ptcb hp ht hl hret
  cases hacc : task_sigchild_accounting cfg ptcb status (task_sigchild_locked t s) with
  | done s2 =>
    obtain ⟨h1, h2, _⟩ :=
      task_sigchild_of_accounting_done cfg env t status s ptcb s2 hp ht hl hacc
    rw [h1]
    exact h2
  | fatal s2 =>
    rw [task_sigchild_of_accounting_fatal cfg env t status s ptcb s2 hp ht hl hacc] at hret
    simp [Run.returned] at hret

/-- C16, amended, at a concrete input: with `sig_received` reporting failure the
run for task 11 returns and has submitted the signal exactly once. -/
theorem task_sigchild_discards_submission_result_witness :
    signals (task_sigchild sample_config sample_collab_failing 1 3
        sample_counter_sys).state.trace
      = [(0, { si_signo := 4, si_code := 4, si_value_sival_ptr := none,
               si_pid := 11, si_status := 3 })] :=
  ((task_sigchild_discards_submission_result sample_config sample_collab_failing sample_collab
    1 3 sample_counter_sys).2.2 0 (by decide) (by decide) (by decide) (by decide)).trans
    (by decide)

/-- C17: where the reaping is compiled in (`CONFIG_SCHED_HAVE_PARENT` and
`CONFIG_SCHED_CHILD_STATUS`), after `task_exithook` returns the record owns no
child status record, whatever records it owned, whatever its kind and whether
or not its parent exists; without `CONFIG_DEBUG` the run always returns. -/
theorem task_exithook_reaps_children (cfg : Config) (env : Collab) (t : Nat) (status : Int)
    (s : Sys)
    (hp : cfg.CONFIG_SCHED_HAVE_PARENT = true) (hcs : cfg.CONFIG_SCHED_CHILD_STATUS = true) :
    ((task_exithook cfg env t status s).returned = true →
        ((task_exithook cfg env t status s).state.tcbs t).children = [])
    ∧ (cfg.CONFIG_DEBUG = false → (task_exithook cfg env t status s).returned = true) := by
  refine ⟨fun hret => ?_, fun hd => ?_⟩
  · rw [task_exithook_returned] at hret
    rw [task_exithook_eq_rest]
    cases hr : task_sigchild cfg env t status
        (task_onexit cfg t status (task_atexit cfg t s)) with
    | done s3 => exact task_exithook_rest_children cfg env t status _ s3 hr hp hcs
    | fatal s3 =>
      rw [hr] at hret
      simp [Run.returned] at hret
  · rw [task_exithook_returned]
    exact task_sigchild_returned_of_no_debug cfg env t status _ hd

/-- C17, at a concrete input: the parent task 10 (address 0), which holds the
records of its children 11 and 12, one with a flag set, exits; its own parent
does not exist.  The run returns and no record is left. -/
theorem task_exithook_reaps_children_witness :
    ((sample_status_sys 10).tcbs 0).children.length = 2
    ∧ (task_exithook sample_config_status sample_collab 0 0 (sample_status_sys 10)).returned
        = true
    ∧ ((task_exithook sample_config_status sample_collab 0 0
          (sample_status_sys 10)).state.tcbs 0).children = [] :=
  ⟨by decide, by decide,
    (task_exithook_reaps_children sample_config_status sample_collab 0 0 (sample_status_sys 10)
      (by decide) (by decide)).1 (by decide)⟩

end TaskExithook
